import Mathlib

/-!
# Verification of the headerlet manager (stwcs/wcsutil/headerlet.py)

Shallow embedding of the headerlet module: FITS headers are lists of
keyword/value cards, an HDU is represented by its header (image data arrays
play no role in the verified claims and are abstracted away), a science file
is a list of HDUs (ordinary ones plus embedded-headerlet ones) together with
the WCSCORR provenance table.

Keyword access in the source is case-insensitive (`pyfits`); the embedding
normalizes every keyword to its upper-case form.

Functions from this repository that are imported by the module but whose
source is not available here (`altwcs`, `wcscorr`, `stwcs.updatewcs.utils`,
`stsci.tools.fileutil`, `HSTWCS`) are modelled from the spec; each such
definition carries a doc comment starting `Modelled from the spec:`.

Python failure behaviour is made explicit: an operation that can raise
returns `Except Failure _`; the mutating entry points return a `PyOut`
record that also carries the failures the source merely reports through
`logger.critical` before returning without mutating the file.
-/

/-- A FITS header card value: string or integer (the two kinds the verified
code paths distinguish). -/
inductive HVal where
  | str : String → HVal
  | num : Int → HVal
deriving DecidableEq, Repr

/-- Render a value the way the source uses it in string contexts. -/
def HVal.asStr : HVal → String
  | .str s => s
  | .num n => toString n

/-- Integer view of a value (used for `A_ORDER`-style cards and `EXTVER`). -/
def HVal.asInt : HVal → Int
  | .str _ => 0
  | .num n => n

/-! ### Kernel-reducible string operations

The corresponding `String` library functions are implemented with
well-founded recursion or position arithmetic that the kernel cannot
evaluate on concrete inputs; the embedding therefore uses these
character-list versions (semantically the same on the inputs involved). -/

/-- Python `str.strip` / `String.trim` whitespace test. -/
def chIsSpace (c : Char) : Bool :=
  c == ' ' || c == '\t' || c == '\n' || c == '\r'

/-- `s.rstrip()` / `String.trimRight`. -/
def strTrimRight (s : String) : String :=
  ⟨(s.data.reverse.dropWhile chIsSpace).reverse⟩

/-- `s.strip()` / `String.trim`. -/
def strTrim (s : String) : String :=
  ⟨((s.data.dropWhile chIsSpace).reverse.dropWhile chIsSpace).reverse⟩

/-- ASCII upper-casing of one character. -/
def chUpper (c : Char) : Char :=
  if 'a' ≤ c && c ≤ 'z' then Char.ofNat (c.toNat - 32) else c

/-- `s.upper()` / `String.toUpper`. -/
def strUpper (s : String) : String :=
  ⟨s.data.map chUpper⟩

/-- `String.isPrefixOf`. -/
def strIsPre (pat s : String) : Bool :=
  pat.data.isPrefixOf s.data

/-- `String.endsWith`. -/
def strEndsWith (s pat : String) : Bool :=
  pat.data.isSuffixOf s.data

/-- `String.drop`. -/
def strDrop (s : String) (n : Nat) : String :=
  ⟨s.data.drop n⟩

/-- `String.dropRight`. -/
def strDropRight (s : String) (n : Nat) : String :=
  ⟨s.data.take (s.data.length - n)⟩

/-- `String.take`. -/
def strTake (s : String) (n : Nat) : String :=
  ⟨s.data.take n⟩

/-- Fuel-driven worker for `strSplitOn` (the fuel is an upper bound on the
number of characters consumed, keeping the recursion structural). -/
def splitOnAux (pat : List Char) : Nat → List Char → List Char →
    List (List Char)
  | 0, l, cur => [cur ++ l]
  | fuel + 1, l, cur =>
    match l with
    | [] => [cur]
    | c :: rest =>
      if pat.isPrefixOf (c :: rest) then
        cur :: splitOnAux pat fuel ((c :: rest).drop pat.length) []
      else
        splitOnAux pat fuel rest (cur ++ [c])

/-- `String.splitOn`. -/
def strSplitOn (s pat : String) : List String :=
  if pat == "" then [s]
  else (splitOnAux pat.data (s.data.length + 1) s.data []).map
    (fun l => ⟨l⟩)

/-- Digit-list parsing for `strToInt`. -/
def natOfDigits (l : List Char) : Option Nat :=
  match l with
  | [] => none
  | _ =>
    l.foldl (fun acc c =>
      acc.bind (fun n =>
        if c.isDigit then some (n * 10 + (c.toNat - 48)) else none))
      (some 0)

/-- `String.toInt?`. -/
def strToInt (s : String) : Option Int :=
  match s.data with
  | '-' :: rest => (natOfDigits rest).map (fun n => -(n : Int))
  | l => (natOfDigits l).map Int.ofNat

/-- One header card: keyword and value (comments are irrelevant here). -/
structure Card where
  key : String
  val : HVal
deriving DecidableEq, Repr

/-- A FITS header: the ordered list of its cards. -/
abbrev Header := List Card

/-- `kw in hdr`. -/
def hcontains (h : Header) (k : String) : Bool :=
  h.any (fun c => c.key == k)

/-- `hdr[kw]` as an option (the raising form is `hgetE`). -/
def hget (h : Header) (k : String) : Option HVal :=
  (h.find? (fun c => c.key == k)).map (·.val)

/-- `hdr[kw]` raising `KeyError` when the keyword is absent. -/
def hgetE (h : Header) (k : String) : Except Unit HVal :=
  match hget h k with
  | some v => .ok v
  | none => .error ()

/-- `hdr[kw]` as a string value. -/
def hgetStr (h : Header) (k : String) : Option String :=
  (hget h k).map HVal.asStr

/-- `hdr.get(kw, default)`. -/
def hgetD (h : Header) (k : String) (d : HVal) : HVal :=
  (hget h k).getD d

/-- `hdr.update(kw, value)`: replace the value of an existing card, else
append a new card (card position arguments of the source are irrelevant to
the verified claims and are dropped). -/
def hupd (h : Header) (k : String) (v : HVal) : Header :=
  if hcontains h k then
    h.map (fun c => if c.key == k then { c with val := v } else c)
  else h ++ [⟨k, v⟩]

/-- `del hdr[kw]` ignoring a missing keyword (the `try/except KeyError: pass`
pattern of the source). -/
def hdel (h : Header) (k : String) : Header :=
  h.filter (fun c => c.key ≠ k)

/-- `del hdr[kw]` raising `KeyError` when the keyword is absent. -/
def hdelE (h : Header) (k : String) : Except Unit Header :=
  if hcontains h k then .ok (hdel h k) else .error ()

/-- Cards matching a wildcard pattern `PRE*` (prefix match on the keyword). -/
def hwild (h : Header) (pre : String) : List Card :=
  h.filter (fun c => strIsPre pre c.key)

/-- `del hdr[PRE*]` raising `KeyError` when nothing matches. -/
def hdelWildE (h : Header) (pre : String) : Except Unit Header :=
  if (hwild h pre).isEmpty then .error ()
  else .ok (h.filter (fun c => ¬ strIsPre pre c.key))

/-- An extension header of a headerlet file.  A headerlet is represented by
the list of its HDUs' headers (auxiliary distortion arrays are carried by
their headers; array data is outside the verified claims). -/
abbrev Hdulist := List Header

/-- `EXTNAME` of a header, `""` when absent. -/
def extnameOf (h : Header) : String :=
  (hgetStr h "EXTNAME").getD ""

/-- `EXTVER` of a header, `0` when absent. -/
def extverOf (h : Header) : Int :=
  ((hget h "EXTVER").getD (.num 0)).asInt

/-- `countExtn(fobj, name)` over a plain HDU list: number of extensions whose
`EXTNAME` equals `name`. -/
def countExtnH (l : Hdulist) (name : String) : Nat :=
  (l.filter (fun h => extnameOf h == name)).length

/-- `fobj[(name, ver)]` over a plain HDU list. -/
def findExtH (l : Hdulist) (name : String) (ver : Int) : Option Header :=
  l.find? (fun h => extnameOf h == name && extverOf h == ver)

/-- One HDU of a science file: an ordinary extension (represented by its
header) or an embedded-headerlet extension (`HeaderletHDU`): its own header
plus the embedded headerlet's HDU list. -/
inductive SciHDU where
  | plain : Header → SciHDU
  | hlet : Header → Hdulist → SciHDU
deriving DecidableEq, Repr

/-- Header of a science-file HDU. -/
def SciHDU.header : SciHDU → Header
  | .plain h => h
  | .hlet h _ => h

/-- Is this HDU a `HeaderletHDU` (`pyfits.hdu.base.NonstandardExtHDU`)? -/
def SciHDU.isHlet : SciHDU → Bool
  | .plain _ => false
  | .hlet _ _ => true

/-- Replace the header of a science-file HDU. -/
def SciHDU.withHeader : SciHDU → Header → SciHDU
  | .plain _, h => .plain h
  | .hlet _ c, h => .hlet h c

/-- A WCSCORR table row.
Modelled from the spec: ProvenanceRow — (extension-id, alternate-key,
solution-name) plus an `active` flag distinguishing the primary from merely
archived solutions (the `wcscorr` module is not under src/). -/
structure ProvRow where
  hdrname : String
  wcsname : String
  extver : Int
  active : Bool
deriving DecidableEq, Repr

/-- A science file: its HDU list (index 0 is the primary HDU) and the
WCSCORR provenance table. -/
structure SciFile where
  hdus : List SciHDU
  wcsRows : List ProvRow
deriving DecidableEq, Repr

/-- `countExtn(fobj, name)`: extensions whose `EXTNAME` equals `name`. -/
def countExtn (f : SciFile) (name : String) : Nat :=
  (f.hdus.filter (fun u => extnameOf u.header == name)).length

/-- `fobj[(name, ver)]`. -/
def findExt (f : SciFile) (name : String) (ver : Int) : Option SciHDU :=
  f.hdus.find? (fun u => extnameOf u.header == name && extverOf u.header == ver)

/-- Index of `fobj[(name, ver)]` in the HDU list. -/
def findExtIdx (f : SciFile) (name : String) (ver : Int) : Option Nat :=
  f.hdus.findIdx? (fun u => extnameOf u.header == name && extverOf u.header == ver)

/-- Update the header of extension `(name, ver)` in place. -/
def updExt (f : SciFile) (name : String) (ver : Int) (g : Header → Header) : SciFile :=
  { f with hdus := f.hdus.map (fun u =>
      if extnameOf u.header == name && extverOf u.header == ver then
        u.withHeader (g u.header)
      else u) }

/-- `get_headerlet_kw_names(fobj, kw)`: the `kw` values of all
`HeaderletHDU` extensions (`""` for a missing keyword; the source would
raise there and no verified claim exercises that case). -/
def getHeaderletKwNames (f : SciFile) (kw : String) : List String :=
  (f.hdus.filter SciHDU.isHlet).map (fun u => (hgetStr u.header kw).getD "")

/-- `verify_hdrname_is_unique(fobj, hdrname)`. -/
def verifyHdrnameIsUnique (f : SciFile) (hdrname : String) : Bool :=
  ¬ (getHeaderletKwNames f "HDRNAME").contains hdrname

/-! ## Spec-modelled collaborators (modules imported by the source but not
under src/): the KeySlot allocator (`altwcs`), the DistortionModel resolver
(`stwcs.updatewcs.utils`), extension-name parsing (`stsci.tools.fileutil`)
and the linear-WCS keyword set (`HSTWCS.wcs2header`). -/

/-- Modelled from the spec (§4.2): the 26-letter key alphabet; the reserved
symbol is `O`. -/
def altAlphabet : List String :=
  ["A","B","C","D","E","F","G","H","I","J","K","L","M",
   "N","O","P","Q","R","S","T","U","V","W","X","Y","Z"]

/-- Modelled from the spec (§6, Persisted layout): an alternate solution is
encoded as the standard keyword set suffixed with its key letter, so a key
is "in use" in a header iff `WCSNAME<key>` is present; the primary solution
(key `" "`) is in use iff `WCSNAME` itself is present.
(`altwcs.wcskeys(header)`.) -/
def wcskeysH (h : Header) : List String :=
  (if hcontains h "WCSNAME" then [" "] else []) ++
    altAlphabet.filter (fun k => hcontains h ("WCSNAME" ++ k))

/-- Modelled from the spec (§4.2): free keys are the alphabet minus the
reserved symbol `O` minus the keys in use. (`altwcs.available_wcskeys`.) -/
def availableWcskeys (h : Header) : List String :=
  (altAlphabet.filter (fun k => k ≠ "O")).filter
    (fun k => ¬ (wcskeysH h).contains k)

/-- Modelled from the spec (§4.2): `nextFreeKey` is the lexicographically
smallest free key; `none` when the alphabet is exhausted (`SlotExhausted`).
(`altwcs.next_wcskey`.) -/
def nextWcskey (h : Header) : Option String :=
  (availableWcskeys h).head?

/-- Modelled from the spec (§3, Solution): the name of the solution stored
under each key in use: `{key: header[WCSNAME+key]}`, in key order with the
primary first. (`altwcs.wcsnames`.) -/
def wcsnamesH (h : Header) : List (String × String) :=
  (wcskeysH h).map (fun k =>
    (k, (hgetStr h (strTrimRight ("WCSNAME" ++ k))).getD ""))

/-- Modelled from the spec (§3, CoordinateTransform): the linear-WCS keyword
stems that `altwcs` copies/deletes per key and that `HSTWCS.wcs2header`
emits without SIP terms (reference pixel, reference value, CD matrix,
projection type). -/
def altwcskw : List String :=
  ["WCSAXES", "CRVAL1", "CRVAL2", "CRPIX1", "CRPIX2",
   "CD1_1", "CD1_2", "CD2_1", "CD2_2", "CTYPE1", "CTYPE2", "ORIENTAT"]

/-- Modelled from the spec: `HSTWCS(...).wcs2header(sip2hdr=False)` produces
exactly the linear keyword set, so the membership test
`k.key in hwcshdr` of the source is membership in `altwcskw`. -/
def inLinearWcsKw (k : String) : Bool :=
  altwcskw.contains k

/-- Modelled from the spec (§6): `altwcs.archiveWCS(fobj, ext, wcskey,
wcsname)` copies each linear keyword of the primary solution of every listed
`SCI` extension to the same keyword suffixed with `wcskey`, and records the
name under `WCSNAME<wcskey>`. -/
def archiveWCSHdr (h : Header) (key name : String) : Header :=
  let h := altwcskw.foldl (fun acc stem =>
    match hget acc stem with
    | some v => hupd acc (stem ++ key) v
    | none => acc) h
  hupd h ("WCSNAME" ++ key) (.str name)

/-- Modelled from the spec (§6): `altwcs.deleteWCS(fobj, ext, wcskey)`
removes the keyword set of the alternate solution with key `wcskey`
(linear terms, its `WCSNAME` and its fit keywords) from a header. -/
def deleteWCSHdr (h : Header) (key : String) : Header :=
  (altwcskw ++ ["WCSNAME", "HDRNAME", "RMS_RA", "RMS_DEC", "NMATCH", "CATALOG"]).foldl
    (fun acc stem => hdel acc (stem ++ key)) h

/-- Modelled from the spec (§4.1): the canonical distortion-model identifier
is the three component source names concatenated with a fixed separator.
(`utils.build_distname(sipname, npolfile, d2imfile)`.) -/
def buildDistname (sipname npolfile d2imfile : String) : String :=
  sipname ++ "-" ++ npolfile ++ "-" ++ d2imfile

/-- Modelled from the spec (§4.1): component-name resolution — use the
header's recorded component name when present, `"UNKNOWN"` when the legacy
component is present without a recoverable name, else `"NOMODEL"`.
(`utils.build_sipname`: keyword `SIPNAME`, legacy presence `A_ORDER`.) -/
def buildSipname (f : SciFile) : String :=
  match f.hdus.head? with
  | none => "NOMODEL"
  | some u =>
    match hgetStr u.header "SIPNAME" with
    | some s => s
    | none =>
      match findExt f "SCI" 1 with
      | some sci => if hcontains sci.header "A_ORDER" then "UNKNOWN" else "NOMODEL"
      | none => "NOMODEL"

/-- Modelled from the spec (§4.1): as `buildSipname`, for the lookup-table
component (keyword `NPOLFILE`, legacy presence `CPDIS1`).
(`utils.build_npolname`.) -/
def buildNpolname (f : SciFile) : String :=
  match f.hdus.head? with
  | none => "NOMODEL"
  | some u =>
    match hgetStr u.header "NPOLFILE" with
    | some s => s
    | none =>
      match findExt f "SCI" 1 with
      | some sci => if hcontains sci.header "CPDIS1" then "UNKNOWN" else "NOMODEL"
      | none => "NOMODEL"

/-- Modelled from the spec (§4.1): as `buildSipname`, for the
detector-to-image component (keyword `D2IMFILE`, legacy presence `D2IMEXT`).
(`utils.build_d2imname`.) -/
def buildD2imname (f : SciFile) : String :=
  match f.hdus.head? with
  | none => "NOMODEL"
  | some u =>
    match hgetStr u.header "D2IMFILE" with
    | some s => s
    | none =>
      match findExt f "SCI" 1 with
      | some sci => if hcontains sci.header "D2IMEXT" then "UNKNOWN" else "NOMODEL"
      | none => "NOMODEL"

/-- Modelled from the spec: `utils.extract_rootname(name, suffix)` — strip a
directory, the extension and a trailing `suffix` from a reference-file name;
the claims only need that it is a pure function of its input. -/
def extractRootname (s suffix : String) : String :=
  let base := (strSplitOn s "/").getLast? |>.getD s
  let noext := (strSplitOn base ".").head? |>.getD base
  if suffix.length ≤ noext.length && strEndsWith noext suffix then
    strDropRight noext suffix.length
  else noext

/-- Modelled from the spec: `fu.parseExtn("EXTNAME, ver")` splits an
`"NAME, ver"` string into the pair; a string without a comma-separated
number yields version 1. -/
def parseExtn (s : String) : String × Int :=
  match strSplitOn s "," with
  | [n, v] => (strTrim n, (strToInt (strTrim v)).getD 1)
  | _ => (strTrim s, 1)

/-! ## Failure taxonomy

Every raising path of the source maps to one constructor.  The source raises
bare `ValueError`/`KeyError`/`AssertionError` objects; the constructor names
follow the spec's error taxonomy (§7) plus the Python-level failures the
source can actually produce. -/

/-- Failures of the headerlet operations. -/
inductive Failure where
  /-- `hverify()` assertion failure (`MalformedHeaderlet`). -/
  | malformedHeaderlet
  /-- `verify_dest` false: `DESTIM` does not match the file's `ROOTNAME`
  (`OriginMismatch`; reported via `logger.critical`, not raised). -/
  | originMismatch
  /-- `verify_hdrname` false: an archived headerlet already carries this
  `HDRNAME` (`DuplicateName`; reported via `logger.critical`, not raised). -/
  | duplicateName
  /-- `ValueError` at a distortion-model gate (`DistortionModelConflict`). -/
  | distortionModelConflict
  /-- `ValueError`: several `HeaderletHDU`s match one selector
  (`AmbiguousSelector`). -/
  | ambiguousSelector
  /-- `ValueError`: no `HeaderletHDU` matches the selector (`NotFound`). -/
  | notFound
  /-- `ValueError`: no selector given where one is required. -/
  | missingSelector
  /-- `KeyError`: required metadata absent (`MissingRequiredMetadata`). -/
  | missingMetadata
  /-- `ValueError`: requested alternate key already in use. -/
  | keyInUse
  /-- `AttributeError`: `wcskey.upper()` evaluated with `wcskey = None`
  (headerlet.py line 2081). -/
  | attributeNoneUpper
  /-- `NameError`: `_remove_primary_WCS` references the undefined module
  name `hdr_logger` (headerlet.py line 2499). -/
  | nameErrorHdrLogger
  /-- `ValueError`: `extract_headerlet` compares the extension found for
  `hdrname` with the `extnum` argument and they differ (line 647). -/
  | extnumMismatch
  /-- `AttributeError`: `verify_dest` falls back to `dest.split(...)` on an
  `HDUList` when `ROOTNAME` is absent (line 2334). -/
  | attributeSplitOnList
  /-- `TypeError`/`NameError` from `eval(ext.header['sciext'])` on a value
  that is not a parenthesized extension tuple literal (line 1501). -/
  | sciextEvalError
  /-- `IndexError`: HDU list shorter than an accessed index. -/
  | indexError
  /-- `create_headerlet` invoked for the reserved key `O`: the source
  returns `None` (line 1077–1080), which every caller would then crash on;
  modelled as a failure. -/
  | reservedKey
  /-- Modelled from the spec (§4.2): the key alphabet is exhausted
  (`SlotExhausted`; `altwcs.next_wcskey` returned `None`). -/
  | slotExhausted
  /-- `TypeError`: e.g. subscripting an `int` (`wcsextn[0]`, line 1927) or
  indexing an HDU list with `None` (`fobj[extnum]`, line 653). -/
  | typeError
deriving DecidableEq, Repr

/-- Result of a mutating entry point: the file state on return, the
exception it raised (if any; in-memory mutations made before a raise are
not relied on by any theorem), and the precondition failures it merely
reported through `logger.critical` before returning without applying the
operation. -/
structure PyOut where
  st : SciFile
  raised : Option Failure
  reported : List Failure
deriving DecidableEq, Repr

/-! ## The Headerlet entity (class `Headerlet`, lines 1800–2525) -/

/-- A `Headerlet` object: the underlying HDU list plus the attributes
`__init__` (lines 1806–1847) parses out of it. -/
structure Hlet where
  hdus : Hdulist
  hdrname : HVal
  wcsname : HVal
  upwcsver : HVal
  pywcsver : HVal
  destim : HVal
  sipname : HVal
  npolfile : HVal
  d2imfile : HVal
  distname : HVal
  vafactor : HVal
  author : HVal
  descrip : HVal
  history : String
deriving DecidableEq, Repr

/-- The `fit_kws` attribute (line 1841). -/
def fitKws : List String :=
  ["HDRNAME", "RMS_RA", "RMS_DEC", "NMATCH", "CATALOG"]

/-- `Headerlet.__init__(fobj)` (lines 1806–1847): parse the required primary
header keywords (raising `KeyError` when one is absent), the optional ones
with defaults, `VAFACTOR` from HDU 1 (raising `IndexError` when the list has
fewer than two HDUs) and the concatenated `HISTORY` cards. -/
def mkHeaderlet (l : Hdulist) : Except Failure Hlet := do
  let h0 ← match l.head? with
    | some h => Except.ok h
    | none => Except.error Failure.indexError
  let h1 ← match l[1]? with
    | some h => Except.ok h
    | none => Except.error Failure.indexError
  let req := fun k => match hget h0 k with
    | some v => Except.ok v
    | none => Except.error Failure.missingMetadata
  let hdrname ← req "HDRNAME"
  let wcsname ← req "WCSNAME"
  let destim ← req "DESTIM"
  let sipname ← req "SIPNAME"
  let npolfile ← req "NPOLFILE"
  let d2imfile ← req "D2IMFILE"
  let distname ← req "DISTNAME"
  let author ← req "AUTHOR"
  let descrip ← req "DESCRIP"
  let history := ((hwild h0 "HISTORY").map (fun c => c.val.asStr ++ "\n")).foldl
    (· ++ ·) ""
  Except.ok
    { hdus := l
      hdrname, wcsname
      upwcsver := hgetD h0 "UPWCSVER" (.str "")
      pywcsver := hgetD h0 "PYWCSVER" (.str "")
      destim, sipname, npolfile, d2imfile, distname
      vafactor := hgetD h1 "VAFACTOR" (.num 1)
      author, descrip, history }

/-- `Headerlet.hverify()` (lines 2297–2306): `DESTIM` and `HDRNAME` must be
present with non-blank values and `UPWCSVER` must be present; any violation
raises (`AssertionError`, the spec's `MalformedHeaderlet`). -/
def hverify (hl : Hlet) : Except Failure Unit := do
  let h0 := hl.hdus.headD []
  let chk := fun k =>
    match hget h0 k with
    | some (.str s) => strTrim s ≠ ""
    | some (.num _) => false
    | none => false
  if chk "DESTIM" && chk "HDRNAME" && hcontains h0 "UPWCSVER" then
    Except.ok ()
  else
    Except.error Failure.malformedHeaderlet

/-- Decidable form of `hverify`. -/
def hverifyB (hl : Hlet) : Bool :=
  match hverify hl with
  | .ok _ => true
  | .error _ => false

/-- `Headerlet.verify_hdrname(dest)` (lines 2308–2317). -/
def verifyHdrname (hl : Hlet) (f : SciFile) : Bool :=
  verifyHdrnameIsUnique f hl.hdrname.asStr

/-- `Headerlet.verify_dest(dest)` (lines 2319–2340): compare the file's
`ROOTNAME` with the headerlet's `DESTIM`.  When `ROOTNAME` is absent the
source falls into `dest.split('.fits')`, which on an open HDU list raises
`AttributeError`. -/
def verifyDest (hl : Hlet) (f : SciFile) : Except Failure Bool :=
  match f.hdus.head? with
  | none => .error Failure.indexError
  | some u =>
    match hget u.header "ROOTNAME" with
    | some droot => .ok (droot == hl.destim)
    | none => .error Failure.attributeSplitOnList

/-- `Headerlet.tofile(fname)` (lines 2342–2359) with the `destim`/`hdrname`
arguments left at their defaults: run `hverify`, then `writeto` — the
serialized standalone file carries exactly the headerlet's HDU list, and the
headerlet itself is not changed (`writeto` is the container collaborator's
pure serialization). -/
def tofile (hl : Hlet) : Except Failure Hdulist := do
  hverify hl
  Except.ok hl.hdus

/-- `HeaderletHDU.fromheaderlet(headerlet)` (lines 2560–2607): build the
extension header of the embedded-headerlet HDU from the headerlet's primary
header (`KeyError` when a copied keyword is absent; `SIPNAME` falls back to
`WCSNAME`). -/
def fromHeaderletHDU (hl : Hlet) : Except Failure Header := do
  let phdu := hl.hdus.headD []
  let req := fun k => match hget phdu k with
    | some v => Except.ok v
    | none => Except.error Failure.missingMetadata
  let hdrname ← req "HDRNAME"
  let date ← req "DATE"
  let sipname ← match hget phdu "SIPNAME" with
    | some v => Except.ok v
    | none => req "WCSNAME"
  let wcsname ← req "WCSNAME"
  let distname ← req "DISTNAME"
  let npolfile ← req "NPOLFILE"
  let d2imfile ← req "D2IMFILE"
  Except.ok
    [⟨"XTENSION", .str "FITS"⟩,
     ⟨"HDRNAME", hdrname⟩, ⟨"DATE", date⟩, ⟨"SIPNAME", sipname⟩,
     ⟨"WCSNAME", wcsname⟩, ⟨"DISTNAME", distname⟩,
     ⟨"NPOLFILE", npolfile⟩, ⟨"D2IMFILE", d2imfile⟩,
     ⟨"EXTNAME", .str "HDRLET"⟩]

/-! ## WCS-removal helpers (`Headerlet._remove_*`, lines 2361–2525) -/

/-- Python `pat in s` substring test. -/
def strContains (s pat : String) : Bool :=
  (strSplitOn s pat).length ≥ 2

/-- `_remove_d2im(ext)` (lines 2465–2477): delete the detector-to-image
keywords, each under `try/except KeyError: pass`. -/
def removeD2im (h : Header) : Header :=
  ["D2IMFILE", "AXISCORR", "D2IMEXT", "D2IMERR"].foldl hdel h

/-- One prefix step of `_remove_sip`: read `<p>_ORDER` (skipping the prefix
on `KeyError`), delete it, then delete `<p>_i_j` for `i, j` in
`range(order + 1)`. -/
def removeSipStep (h : Header) (p : String) : Header :=
  match hget h (p ++ "_ORDER") with
  | none => h
  | some v =>
    let h := hdel h (p ++ "_ORDER")
    let n := (v.asInt + 1).toNat
    ((List.range n).flatMap (fun i => (List.range n).map (fun j => (i, j)))).foldl
      (fun acc ij =>
        hdel acc (p ++ "_" ++ toString ij.1 ++ "_" ++ toString ij.2)) h

/-- `_remove_sip(ext)` (lines 2419–2442): drop the SIP polynomial keywords
for the prefixes `A`, `B`, `AP`, `BP`, then `IDCTAB`. -/
def removeSip (h : Header) : Header :=
  hdel (["A", "B", "AP", "BP"].foldl removeSipStep h) "IDCTAB"

/-- The loop body of `_remove_lut`: for each counted `CPDIS` card, delete
the record-valued `DP<c>` cards (a `KeyError` — no such cards — aborts the
whole `try` block, keeping the deletions already performed) and then the
`CPDIS<c>` card itself. -/
def removeLutSteps (l : List (Nat × String)) (h : Header) : Header × Bool :=
  match l with
  | [] => (h, true)
  | (c, key) :: rest =>
    match hdelWildE h ("DP" ++ toString c ++ ".") with
    | .error _ => (h, false)
    | .ok h2 => removeLutSteps rest (hdel h2 key)

/-- `_remove_lut(ext)` (lines 2444–2463): return unchanged when no `CPDIS*`
card exists (the wildcard read raises `KeyError`); otherwise delete the
`DP<c>`/`CPDIS<c>` cards, then `CPERR*`, `NPOLFILE` and `NPOLEXT` — the
single `except KeyError: pass` makes the first missing key abort the rest of
the deletions, keeping the header as mutated so far. -/
def removeLut (h : Header) : Header :=
  let cpdis := hwild h "CPDIS"
  if cpdis.isEmpty then h
  else
    match removeLutSteps
        (((List.range cpdis.length).map (· + 1)).zip (cpdis.map (·.key))) h with
    | (h2, false) => h2
    | (h2, true) =>
      match hdelWildE h2 "CPERR" with
      | .error _ => h2
      | .ok h3 =>
        match hdelE h3 "NPOLFILE" with
        | .error _ => h3
        | .ok h4 =>
          match hdelE h4 "NPOLEXT" with
          | .error _ => h4
          | .ok h5 => h5

/-- `_remove_fit_values(ext)` (lines 2404–2417): delete the astrometric-fit
keywords of every solution key except the reserved `O`. -/
def removeFitValues (h : Header) : Header :=
  let dkeys := (wcskeysH h).filter (fun k => k ≠ "O")
  (["RMS_RA", "RMS_DEC", "NMATCH", "CATALOG"].flatMap (fun fitkw =>
      dkeys.map (fun k => strTrimRight (fitkw ++ k)))).foldl hdel h

/-- `_remove_idc_coeffs(ext)` (lines 2513–2525). -/
def removeIdcCoeffs (h : Header) : Header :=
  ["OCX10", "OCX11", "OCY10", "OCY11", "IDCSCALE"].foldl hdel h

/-- `_remove_ref_files(phdu)` (lines 2393–2402). -/
def removeRefFiles (h : Header) : Header :=
  ["IDCTAB", "NPOLFILE", "D2IMFILE"].foldl hdel h

/-- `_remove_primary_WCS(ext)` (lines 2494–2511): the body's first statement
is `hdr_logger.debug(...)`, but `hdr_logger` is not defined anywhere in the
module (the module's logger is named `logger`), so every call raises
`NameError` and the deletion of the `basic_wcs` keywords and `WCSAXES`
below it is unreachable. -/
def removePrimaryWCS (_h : Header) : Except Failure Header :=
  Except.error Failure.nameErrorHdrLogger

/-- `_remove_alt_WCS(dest, ext=range(numext))` (lines 2479–2492): collect
the solution keys of `dest[('SCI', 1)]` (a `KeyError` when that extension
is absent), drop `O`, `""` and `" "`, and delete each remaining alternate
solution from every extension. -/
def removeAltWCS (f : SciFile) : Except Failure SciFile :=
  match findExt f "SCI" 1 with
  | none => .error Failure.missingMetadata
  | some sci =>
    let dkeys := (wcskeysH sci.header).filter
      (fun k => k ≠ "O" && k ≠ "" && k ≠ " ")
    .ok { f with hdus := f.hdus.map (fun u =>
            u.withHeader (dkeys.foldl deleteWCSHdr u.header)) }

/-- `_del_dest_WCS(dest)` (lines 2361–2391): for every extension whose
`XTENSION` is `IMAGE`, remove the D2IM, SIP and lookup-table keywords, the
primary WCS (which raises `NameError`, see `removePrimaryWCS`), the IDC
coefficients, the fit values and `VAFACTOR`; then strip the reference-file
keywords from the primary HDU, delete every non-reserved alternate
solution, and drop the `WCSDVARR`/`D2IMARR` extensions. -/
def delDestWCS (f : SciFile) : Except Failure SciFile := do
  let hdus ← f.hdus.mapM (fun u =>
    if (hgetStr u.header "XTENSION").getD "" == "IMAGE" then do
      let h := removeD2im u.header
      let h := removeSip h
      let h := removeLut h
      let h ← removePrimaryWCS h
      let h := removeIdcCoeffs h
      let h := removeFitValues h
      let h := hdel h "VAFACTOR"
      pure (u.withHeader h)
    else pure u)
  let f := { f with hdus }
  let f := { f with hdus := match f.hdus with
    | [] => []
    | u :: rest => u.withHeader (removeRefFiles u.header) :: rest }
  let f ← removeAltWCS f
  Except.ok { f with hdus := f.hdus.filter (fun u =>
    extnameOf u.header ≠ "WCSDVARR" && extnameOf u.header ≠ "D2IMARR") }

/-! ## Reference-file propagation and the provenance table -/

/-- `update_ref_files(source, dest)` (lines 442–470): copy `IDCTAB`,
`NPOLFILE` and `D2IMFILE` from the headerlet's primary header into the
file's primary header when present (`DISTNAME` is not among the keywords
copied). -/
def updateRefFiles (src dst : Header) : Header :=
  ["IDCTAB", "NPOLFILE", "D2IMFILE"].foldl (fun acc key =>
    match hget src key with
    | some v => hupd acc key v
    | none => acc) dst

/-- Modelled from the spec (§4.3, I4): `wcscorr.init_wcscorr(fobj)` — the
`wcscorr` module is not under src/ — ensures the provenance table exists,
seeding one row per `SCI` extension for the current primary solution. -/
def initWcscorr (f : SciFile) : SciFile :=
  if f.wcsRows.isEmpty then
    { f with wcsRows :=
        (f.hdus.filter (fun u => extnameOf u.header == "SCI")).map (fun u =>
          { hdrname := (hgetStr u.header "HDRNAME").getD
              ((hgetStr u.header "WCSNAME").getD "")
            wcsname := (hgetStr u.header "WCSNAME").getD ""
            extver := extverOf u.header
            active := true }) }
  else f

/-- Modelled from the spec (§4.3, §4.5): `wcscorr.update_wcscorr(fobj, self,
'SIPWCS', active)` — the `wcscorr` module is not under src/ — appends one
ProvenanceRow per `SIPWCS` part of the headerlet, carrying the headerlet's
solution name and the `active` flag. -/
def updateWcscorr (f : SciFile) (hl : Hlet) (active : Bool) : SciFile :=
  { f with wcsRows := f.wcsRows ++
      (hl.hdus.filter (fun h => extnameOf h == "SIPWCS")).map (fun h =>
        { hdrname := hl.hdrname.asStr
          wcsname := hl.wcsname.asStr
          extver := extverOf h
          active }) }

/-! ## `create_headerlet` (lines 864–1210) -/

/-- The `sciext` argument of `create_headerlet`: an `EXTNAME` string, an
extension index, or an explicit list of extension designators. -/
inductive SciextArg where
  | byName : String → SciextArg
  | byIdx : Int → SciextArg
  | byList : List HVal → SciextArg
deriving DecidableEq, Repr

/-- An extension designator after `try: int(e) / except: fu.parseExtn(e)`. -/
def parseExtnArg (v : HVal) : Sum Int (String × Int) :=
  match v with
  | .num n => .inl n
  | .str s =>
    match strToInt (strTrim s) with
    | some n => .inl n
    | none => .inr (parseExtn s)

/-- Resolve an extension designator against the file. -/
def lookupExtn (f : SciFile) (w : Sum Int (String × Int)) : Option Header :=
  match w with
  | .inl n => (f.hdus[n.toNat]?).map SciHDU.header
  | .inr (nm, v) => (findExt f nm v).map SciHDU.header

/-- `get_header_kw_vals(hdr, kwname, kwval, default)` (lines 184–190). -/
def getHeaderKwVals (h : Header) (kwname : String) (kwval : Option HVal)
    (d : HVal) : HVal :=
  match kwval with
  | some v => v
  | none => hgetD h kwname d

/-- A SIP polynomial keyword (`A_*`, `B_*`, `AP_*`, `BP_*`). -/
def isSipKw (k : String) : Bool :=
  ["A_", "B_", "AP_", "BP_"].any (fun p => strIsPre p k)

/-- An argument defaulted through `if not arg:` (`None` and `""` both fall
back to the resolver). -/
def orResolve (o : Option String) (d : String) : String :=
  match o with
  | some s => if s == "" then d else s
  | none => d

/-- `_create_primary_HDU(...)` (lines 542–589): the headerlet's primary
header.  The `DATE` value comes from the clock collaborator
(`time.strftime`); no verified claim depends on it, so a fixed value stands
in.  `textwrap.wrap` of the history text is modelled as a line split. -/
def createPrimaryHDU (destim hdrname distname wcsname sipname npolfile
    d2imfile : String) (rmsRa rmsDec nmatch catalog upwcsver pywcsver : HVal)
    (author descrip history : String) : Header :=
  [⟨"DESTIM", .str destim⟩, ⟨"HDRNAME", .str hdrname⟩,
   ⟨"DATE", .str "1970-01-01T00:00:00"⟩,
   ⟨"WCSNAME", .str wcsname⟩, ⟨"DISTNAME", .str distname⟩,
   ⟨"SIPNAME", .str sipname⟩, ⟨"NPOLFILE", .str npolfile⟩,
   ⟨"D2IMFILE", .str d2imfile⟩, ⟨"AUTHOR", .str author⟩,
   ⟨"DESCRIP", .str descrip⟩, ⟨"RMS_RA", rmsRa⟩, ⟨"RMS_DEC", rmsDec⟩,
   ⟨"NMATCH", nmatch⟩, ⟨"CATALOG", catalog⟩,
   ⟨"UPWCSVER", upwcsver⟩, ⟨"PYWCSVER", pywcsver⟩] ++
  ((strSplitOn history "\n").filter (· ≠ "")).map (fun l => ⟨"HISTORY", .str l⟩)

/-- The per-extension body of `create_headerlet`'s loop (lines 1100–1198):
build one `SIPWCS` header from a science extension, returning it (or `none`
when the extension lacks the requested key and is skipped) together with the
`WCSDVARR` extension numbers referenced by its `DP` cards. -/
def createSipwcsExt (f : SciFile) (e : HVal) (wcskey : String)
    (npolfile d2imfile : String) (rmsRa rmsDec nmatch catalog : HVal) :
    Except Failure (Option (Header × List Int)) := do
  let fext := parseExtnArg e
  let ehdr ← match lookupExtn f fext with
    | some h => Except.ok h
    | none => Except.error Failure.indexError
  let wkeys := wcskeysH ehdr
  if wcskey ≠ " " && !wkeys.contains wcskey then
    -- skip any extension which does not have this wcskey
    return none
  -- h = HSTWCS(fobj, ext=fext, wcskey=' ').wcs2header(sip2hdr=True):
  -- modelled from the spec — the full transform keyword set of the primary
  -- solution: linear terms (incl. ORIENTAT) plus the SIP polynomial cards
  let h : Header := ehdr.filter (fun c => inLinearWcsKw c.key || isSipKw c.key)
  let h := hupd h "RMS_RA" rmsRa
  let h := hupd h "RMS_DEC" rmsDec
  let h := hupd h "NMATCH" nmatch
  let h := hupd h "CATALOG" catalog
  -- alternate solution requested: overlay its linear terms
  -- (altwcs.convertAltWCS, modelled from the spec: strip the key suffix)
  let h := if wcskey ≠ " " then
      (ehdr.filter (fun c => altwcskw.any (fun stem => c.key == stem ++ wcskey))).foldl
        (fun acc c => hupd acc (strDropRight c.key wcskey.length) c.val) h
    else h
  let h := match hget ehdr "VAFACTOR" with
    | some v => h ++ [⟨"VAFACTOR", v⟩]
    | none => h
  let h := ⟨"EXTNAME", HVal.str "SIPWCS"⟩ :: h
  let extverVal : HVal := match fext with
    | .inl n => hgetD ehdr "EXTVER" (.num n)
    | .inr (_, v) => .num v
  let h := match h with
    | c0 :: rest => c0 :: ⟨"EXTVER", extverVal⟩ :: rest
    | [] => [⟨"EXTVER", extverVal⟩]
  let h := h ++ [⟨"SCIEXT", e⟩]
  -- lookup-table cards (source guards with `npolfile is not 'NOMODEL'`;
  -- CPython interning makes the identity test behave as inequality here)
  let (h, dvarr) ←
    if npolfile ≠ "NOMODEL" then do
      let cpdis := hwild ehdr "CPDIS"
      let step := fun (acc : Header × List Int) (ci : Nat) =>
        let c := ci + 1
        let (hh, dv) := acc
        let hh := hh ++ (match cpdis[ci]? with
          | some cc => [cc]
          | none => [])
        let dp := hwild ehdr ("DP" ++ toString c ++ ".")
        let dv := match dp.find? (fun kc => strContains kc.key "EXTVER") with
          | some kc => dv ++ [kc.val.asInt]
          | none => dv
        let hh := hh ++ dp
        let hh := match hget ehdr ("CPERROR" ++ toString c) with
          | some v => hh ++ [⟨"CPERROR" ++ toString c, v⟩]
          | none => hh
        (hh, dv)
      let (h, dv) := (List.range cpdis.length).foldl step (h, [])
      let h := match hget ehdr "NPOLEXT" with
        | some v => h ++ [⟨"NPOLEXT", v⟩]
        | none => h
      pure (h, dv)
    else pure (h, [])
  -- detector-to-image cards: `AXISCORR` is required when a D2IM model exists
  let h ←
    if d2imfile ≠ "NOMODEL" then do
      let h := match hget ehdr "D2IMEXT" with
        | some v => h ++ [⟨"D2IMEXT", v⟩]
        | none => h
      let h ← match hget ehdr "AXISCORR" with
        | some v => Except.ok (h ++ [⟨"AXISCORR", v⟩])
        | none => Except.error Failure.missingMetadata
      let h := match hget ehdr "D2IMERR" with
        | some v => h ++ [⟨"D2IMERR", v⟩]
        | none => h ++ [⟨"DPERROR", .num 0⟩]
      pure h
    else pure h
  return some (h, dvarr)

/-- The body of `create_headerlet(filename, sciext, hdrname, destim,
wcskey, wcsname, sipname, npolfile, d2imfile, author, descrip, history,
rms_ra, rms_dec, nmatch, catalog)` (lines 864–1209): everything up to and
including the construction of the headerlet's HDU list `hdul`. -/
def createHeaderletHdul (f : SciFile) (sciext : SciextArg := .byName "SCI")
    (hdrname : Option String := none) (destim : Option String := none)
    (wcskey : Option String := some " ") (wcsname : Option String := none)
    (sipname : Option String := none) (npolfile : Option String := none)
    (d2imfile : Option String := none) (author : Option String := none)
    (descrip : Option String := none) (history : Option String := none)
    (rmsRa : Option HVal := none) (rmsDec : Option HVal := none)
    (nmatch : Option HVal := none) (catalog : Option HVal := none) :
    Except Failure Hdulist := do
  -- wcsext = 1, or 0 for a simple (extension-less) FITS file
  let simple := f.hdus.length ≤ 1
  let wcsext : Nat := if simple then 0 else 1
  let wcsextHdr ← match f.hdus[wcsext]? with
    | some u => Except.ok u.header
    | none => Except.error Failure.indexError
  -- 'PRIMARY' is translated to ' '; `wcskey.upper()` raises on `None`
  let wcskey ← match wcskey with
    | none => Except.error Failure.attributeNoneUpper
    | some k => Except.ok (if k == "PRIMARY" then " " else strUpper k)
  let wcsnamekw := strTrimRight ("WCSNAME" ++ wcskey)
  let hdrnamekw := strTrimRight ("HDRNAME" ++ wcskey)
  -- line 959 computes altwcs.wcsnames(fobj, ext=wcsext) but never uses it
  let wcsname ← match wcsname with
    | none =>
      match hgetStr wcsextHdr wcsnamekw with
      | some w => Except.ok w
      | none =>
        match hdrname with
        | some hn =>
          if ¬ (["", " ", "INDEF"].contains hn) then Except.ok hn
          else
            match hgetStr wcsextHdr hdrnamekw with
            | some w => Except.ok w
            | none => Except.error Failure.missingMetadata
        | none =>
          match hgetStr wcsextHdr hdrnamekw with
          | some w => Except.ok w
          | none => Except.error Failure.missingMetadata
    | some w =>
      -- consistency of user-specified wcsname and wcskey
      match hgetStr wcsextHdr wcsnamekw with
      | none => Except.error Failure.missingMetadata
      | some wname =>
        if w ≠ wname then Except.error Failure.missingMetadata
        else Except.ok w
  let wkeys := wcskeysH wcsextHdr
  if wcskey ≠ " " && !wkeys.contains wcskey then
    throw Failure.notFound
  let phdr0 := (f.hdus.headD (.plain [])).header
  let destim := match destim with
    | some d => d
    | none => (hgetStr phdr0 "ROOTNAME").getD ""
  let hdrname ← (
    let given := hdrname.getD ""
    if given ≠ "" then Except.ok given
    else
      match hgetStr wcsextHdr hdrnamekw with
      | some v => Except.ok v
      | none =>
        match hgetStr wcsextHdr wcsnamekw with
        | some v => Except.ok v
        | none => Except.error Failure.missingMetadata)
  let sipname := orResolve sipname (buildSipname f)
  let npolfile := orResolve npolfile (buildNpolname f)
  let d2imfile := orResolve d2imfile (buildD2imname f)
  let distname := buildDistname sipname npolfile d2imfile
  let rmsRa := getHeaderKwVals wcsextHdr (strTrimRight ("RMS_RA" ++ wcskey)) rmsRa (.num 0)
  let rmsDec := getHeaderKwVals wcsextHdr (strTrimRight ("RMS_DEC" ++ wcskey)) rmsDec (.num 0)
  let nmatch := getHeaderKwVals wcsextHdr (strTrimRight ("NMATCH" ++ wcskey)) nmatch (.num 0)
  let catalog := getHeaderKwVals wcsextHdr (strTrimRight ("CATALOG" ++ wcskey)) catalog (.str "")
  let upwcsver := hgetD phdr0 "UPWCSVER" (.str " ")
  let pywcsver := hgetD phdr0 "PYWCSVER" (.str " ")
  -- sciext normalization (int / EXTNAME string / explicit list)
  let sciextList : List HVal := match sciext with
    | .byIdx n => [.num n]
    | .byName s =>
      (List.range (countExtn f s)).map (fun i =>
        .str (s ++ ", " ++ toString (i + 1)))
    | .byList l => l
  if wcskey == "O" then
    throw Failure.reservedKey
  let phdu := createPrimaryHDU destim hdrname distname wcsname sipname
    npolfile d2imfile rmsRa rmsDec nmatch catalog upwcsver pywcsver
    (author.getD "") (descrip.getD "") (history.getD "")
  let (sipHdrs, wcsdvarrExtns) ←
    if !simple then do
      let res ← sciextList.foldlM (fun (acc : List Header × List Int) e => do
        match ← createSipwcsExt f e wcskey npolfile d2imfile
            rmsRa rmsDec nmatch catalog with
        | none => pure acc
        | some (h, dv) => pure (acc.1 ++ [h], acc.2 ++ dv)) ([], [])
      pure res
    else pure ([], [])
  let dvarrCopies ← wcsdvarrExtns.mapM (fun w =>
    match findExtH (f.hdus.map SciHDU.header) "WCSDVARR" w with
    | some h => Except.ok h
    | none => Except.error Failure.missingMetadata)
  let numd2im := countExtn f "D2IMARR"
  let d2imCopies ← (List.range numd2im).mapM (fun d =>
    match findExtH (f.hdus.map SciHDU.header) "D2IMARR" (Int.ofNat (d + 1)) with
    | some h => Except.ok h
    | none => Except.error Failure.missingMetadata)
  Except.ok ((phdu :: sipHdrs) ++ dvarrCopies ++ d2imCopies)

/-- `create_headerlet` (lines 864–1210): build the HDU list and return
`Headerlet(hdul)` (line 1210), i.e. parse it back through the `Headerlet`
constructor. -/
def createHeaderlet (f : SciFile) (sciext : SciextArg := .byName "SCI")
    (hdrname : Option String := none) (destim : Option String := none)
    (wcskey : Option String := some " ") (wcsname : Option String := none)
    (sipname : Option String := none) (npolfile : Option String := none)
    (d2imfile : Option String := none) (author : Option String := none)
    (descrip : Option String := none) (history : Option String := none)
    (rmsRa : Option HVal := none) (rmsDec : Option HVal := none)
    (nmatch : Option HVal := none) (catalog : Option HVal := none) :
    Except Failure Hlet := do
  let hdul ← createHeaderletHdul f sciext hdrname destim wcskey wcsname
    sipname npolfile d2imfile author descrip history rmsRa rmsDec
    nmatch catalog
  mkHeaderlet hdul

/-! ## `attach_to_file` (lines 2180–2222) -/

/-- `Headerlet.attach_to_file(fobj)`: verify origin (`DESTIM` vs `ROOTNAME`)
and name uniqueness; on success append one embedded-headerlet HDU (with
`EXTVER` one past the current count) and the provenance rows (inactive); on
failure report the violated preconditions through `logger.critical` and
return with the file untouched. -/
def attachToFile (hl : Hlet) (f : SciFile) : PyOut :=
  match hverify hl with
  | .error e => ⟨f, some e, []⟩
  | .ok _ =>
  match verifyDest hl f with
  | .error e => ⟨f, some e, []⟩
  | .ok destver =>
  let hdrver := verifyHdrname hl f
  if destver && hdrver then
    match fromHeaderletHDU hl with
    | .error e => ⟨f, some e, []⟩
    | .ok hdr =>
      let numhlt := countExtn f "HDRLET"
      let hdr := hupd hdr "EXTVER" (.num ((numhlt : Int) + 1))
      let f := { f with hdus := f.hdus ++ [SciHDU.hlet hdr hl.hdus] }
      let f := updateWcscorr f hl false
      ⟨f, none, []⟩
  else
    ⟨f, none,
      (if !destver then [Failure.originMismatch] else []) ++
      (if !hdrver then [Failure.duplicateName] else [])⟩

/-! ## `apply_as_alternate` (lines 2059–2178) -/

/-- The per-extension write of `apply_as_alternate` (lines 2135–2167):
insert, under the chosen key, every SIPWCS card whose keyword contains a
linear-WCS stem (truncated to 7 characters before suffixing), then
`WCSNAME<key>` and the suffixed fit keywords. -/
def writeAltExt (hl : Hlet) (f : SciFile) (idx : Nat) (wkey wname : String) :
    Except Failure SciFile := do
  let sipHdr ← match findExtH hl.hdus "SIPWCS" (Int.ofNat idx) with
    | some h => Except.ok h
    | none => Except.error Failure.missingMetadata
  let sciextVal ← match hget sipHdr "SCIEXT" with
    | some v => Except.ok v
    | none => Except.error Failure.missingMetadata
  let fext := parseExtnArg sciextVal
  let fhdr ← match lookupExtn f fext with
    | some h => Except.ok h
    | none => Except.error Failure.indexError
  let fhdr := sipHdr.foldl (fun acc c =>
    (altwcskw.filter (fun akw => strContains c.key akw)).foldl
      (fun a _ => a ++ [⟨strTake c.key 7 ++ wkey, c.val⟩]) acc) fhdr
  let fhdr := fhdr ++ [⟨"WCSNAME" ++ wkey, .str wname⟩]
  let fhdr ← fitKws.foldlM (fun acc kw =>
    match hget (hl.hdus.headD []) kw with
    | some v => Except.ok (acc ++ [⟨kw ++ wkey, v⟩])
    | none => Except.error Failure.missingMetadata) fhdr
  match fext with
  | .inl n => Except.ok { f with hdus := f.hdus.mapIdx (fun i u =>
      if i == n.toNat then u.withHeader fhdr else u) }
  | .inr (nm, v) => Except.ok (updExt f nm v (fun _ => fhdr))

/-- `Headerlet.apply_as_alternate(fobj, attach, wcskey, wcsname)`:
`wcskey.upper()` is evaluated before anything else looks at `wcskey`, so the
documented default `wcskey=None` ("the next available key will be used")
raises `AttributeError`; the `if wcskey is None` branch that would call the
key allocator (line 2120) is unreachable.  With a key supplied: origin
check, then the distortion gate — the destination's `DISTNAME` must be
present, differ from `"UNKNOWN"` and equal the headerlet's — then key
availability, the per-extension writes, provenance update and optional
attach. -/
def applyAsAlternate (hl : Hlet) (f : SciFile) (attach : Bool)
    (wcskey : Option String) (wcsname : Option String) : PyOut :=
  match hverify hl with
  | .error e => ⟨f, some e, []⟩
  | .ok _ =>
  match wcskey with
  | none => ⟨f, some Failure.attributeNoneUpper, []⟩
  | some rawkey =>
  let wcskey := strUpper rawkey
  match verifyDest hl f with
  | .error e => ⟨f, some e, []⟩
  | .ok false => ⟨f, none, [Failure.originMismatch]⟩
  | .ok true =>
  let phdr := (f.hdus.headD (.plain [])).header
  let distname := (hgetStr phdr "DISTNAME").getD "UNKNOWN"
  if distname == "UNKNOWN" || hl.distname.asStr ≠ distname then
    ⟨f, some Failure.distortionModelConflict, []⟩
  else
  let f := initWcscorr f
  let wname := match wcsname with
    | some w => w
    | none => (hgetStr (hl.hdus.headD []) "WCSNAME").getD ""
  match (do
      let sip1 ← match findExtH hl.hdus "SIPWCS" 1 with
        | some h => Except.ok h
        | none => Except.error Failure.missingMetadata
      let sciextVal ← match hget sip1 "SCIEXT" with
        | some v => Except.ok v
        | none => Except.error Failure.missingMetadata
      let scihdr ← match lookupExtn f (parseExtnArg sciextVal) with
        | some h => Except.ok h
        | none => Except.error Failure.indexError
      -- the `wcskey is None` / next_wcskey branch of the source is dead:
      -- wcskey is necessarily a string here
      if (availableWcskeys scihdr).contains wcskey then
        Except.ok wcskey
      else
        Except.error Failure.keyInUse : Except Failure String) with
  | .error e => ⟨f, some e, []⟩
  | .ok wkey =>
  let numsip := countExtnH hl.hdus "SIPWCS"
  match (List.range numsip).foldlM (fun acc i =>
      writeAltExt hl acc (i + 1) wkey wname) f with
  | .error e => ⟨f, some e, []⟩
  | .ok f =>
  let f := updateWcscorr f hl true
  if attach then
    let a := attachToFile hl f
    ⟨a.st, a.raised, []⟩
  else ⟨f, none, []⟩

/-! ## `apply_as_primary` (lines 1849–2057) -/

/-- `FITS_STD_KW` (lines 58–60). -/
def fitsStdKw : List String :=
  ["XTENSION", "BITPIX", "NAXIS", "PCOUNT", "GCOUNT", "EXTNAME", "EXTVER",
   "ORIGIN", "INHERIT", "DATE", "IRAF-TLM"]

/-- The archive block of `apply_as_primary` (lines 1902–1975): when
`archive` is set, snapshot the current primary as a headerlet extension
(unless its name is already archived); with equal models additionally copy
the primary into the next free alternate key on every `SCI` extension; with
differing models snapshot every alternate solution whose name is not `OPUS`
and not yet archived.  Returns the (possibly) updated file, the pending
original-primary HDU and the pending alternate-solution HDUs. -/
def applyArchiveBlock (hl : Hlet) (f : SciFile) (archive distModelsEqual : Bool)
    (numhlt : Nat) (hdrletExtnames : List String) :
    Except Failure (SciFile × Option SciHDU × List SciHDU) := do
  if !archive then return (f, none, [])
  let sci1 ← match findExt f "SCI" 1 with
    | some u => Except.ok u.header
    | none => Except.error Failure.missingMetadata
  let (hdrname, wcsname) ← match hgetStr sci1 "WCSNAME" with
    | some w => Except.ok (w, some w)
    | none =>
      match hgetStr (f.hdus.headD (.plain [])).header "ROOTNAME" with
      | some r => Except.ok (r ++ "_orig", (none : Option String))
      | none => Except.error Failure.missingMetadata
  let wcskey := " "
  let sip1 ← match hl.hdus[1]? with
    | some h => Except.ok h
    | none => Except.error Failure.indexError
  let wcsextnVal ← match hget sip1 "SCIEXT" with
    | some v => Except.ok v
    | none => Except.error Failure.missingMetadata
  let wcsextn := parseExtnArg wcsextnVal
  let (origHlt, numhlt) ←
    if ¬ hdrletExtnames.contains hdrname then do
      -- sciext=wcsextn[0]: subscripting a plain int raises TypeError
      let extname0 ← match wcsextn with
        | .inl _ => Except.error Failure.typeError
        | .inr (nm, _) => Except.ok nm
      let origHl ← createHeaderlet f (.byName extname0) (some hdrname) none
        (some wcskey) wcsname
      let hdu ← fromHeaderletHDU origHl
      let hdu := hupd hdu "EXTVER" (.num ((numhlt : Int) + 1))
      pure (some (SciHDU.hlet hdu origHl.hdus), numhlt + 1)
    else pure (none, numhlt)
  if distModelsEqual then do
    let scihdr ← match lookupExtn f wcsextn with
      | some h => Except.ok h
      | none => Except.error Failure.missingMetadata
    let priwcsName := match hgetStr scihdr "HDRNAME" with
      | some hn => hn
      | none =>
        match hgetStr scihdr "WCSNAME" with
        | some wn => wn
        | none =>
          match hgetStr scihdr "IDCTAB" with
          | some idc => "IDC_" ++ extractRootname idc "_idc"
          | none => "UNKNOWN"
    let nextkey ← match nextWcskey scihdr with
      | some k => Except.ok k
      | none => Except.error Failure.slotExhausted
    let numsci := countExtn f "SCI"
    let f := (List.range numsci).foldl (fun acc i =>
      updExt acc "SCI" (Int.ofNat (i + 1))
        (fun h => archiveWCSHdr h nextkey priwcsName)) f
    pure (f, origHlt, [])
  else do
    let scihdr ← match lookupExtn f wcsextn with
      | some h => Except.ok h
      | none => Except.error Failure.missingMetadata
    let names := (wcsnamesH scihdr).map (·.2)
    let (f, alts, _, _) ← names.foldlM
      (fun (st : SciFile × List SciHDU × List String × Nat) hname => do
        let (f, alts, extnames, nh) := st
        if hname ≠ "OPUS" && ¬ extnames.contains hname then do
          let altHl ← createHeaderlet f (.byName "SCI") (some hname) none
            (some wcskey) (some hname)
          let nh := nh + 1
          let hdu ← fromHeaderletHDU altHl
          let hdu := hupd hdu "EXTVER" (.num (nh : Int))
          pure (f, alts ++ [SciHDU.hlet hdu altHl.hdus],
            extnames ++ [hname], nh)
        else pure st)
      (f, [], hdrletExtnames, numhlt)
    pure (f, origHlt, alts)

/-- One iteration of the SIPWCS copy loop of `apply_as_primary`
(lines 1990–2038): write the headerlet's transform of part `idx` into
`fobj[('SCI', idx)]` — only the linear terms when the models are equal, all
non-standard keywords (deferring record-valued `DP` cards) when they are
not — followed by the fit keywords. -/
def copySipwcsStep (hl : Hlet) (equal : Bool) (f : SciFile) (idx : Nat) :
    Except Failure SciFile := do
  let sciU ← match findExt f "SCI" (Int.ofNat idx) with
    | some u => Except.ok u
    | none => Except.error Failure.missingMetadata
  let sipHdr ← match findExtH hl.hdus "SIPWCS" (Int.ofNat idx) with
    | some h => Except.ok h
    | none => Except.error Failure.missingMetadata
  let keep := fun (k : String) =>
    (equal && inLinearWcsKw k) ||
    (!equal && ¬ fitsStdKw.contains k)
  let fhdr := sipHdr.reverse.foldl (fun acc c =>
    if keep c.key && ¬ strContains c.key "DP" then hupd acc c.key c.val
    else acc) sciU.header
  let updateCpdis := sipHdr.reverse.any (fun c =>
    keep c.key && strContains c.key "DP")
  let fhdr ← fitKws.foldlM (fun acc kw =>
    match hget (hl.hdus.headD []) kw with
    | some v => Except.ok (hupd acc kw v)
    | none => Except.error Failure.missingMetadata) fhdr
  let numdp := (hwild sipHdr "CPDIS").length
  let fhdr ←
    if updateCpdis then
      (List.range numdp).foldlM (fun acc i => do
        let d := i + 1
        if ¬ hcontains acc ("CPDIS" ++ toString d) then
          throw Failure.missingMetadata
        pure ((hwild sipHdr ("DP" ++ toString d)).foldl
          (fun a c => hupd a c.key c.val) acc)) fhdr
    else pure fhdr
  Except.ok (updExt f "SCI" (Int.ofNat idx) (fun _ => fhdr))

/-- `Headerlet.apply_as_primary(fobj, attach, archive, force)`: origin
check (`logger.critical` report, no mutation, when it fails), the
distortion-model gate (`ValueError` whenever the models differ and `force`
is unset, regardless of `archive`), the archive block, the destination
strip (`_del_dest_WCS`) plus distortion-array copies when the models
differ, reference-file propagation (`DISTNAME` is left untouched), the
SIPWCS copy loop, the provenance update, the pending archive HDUs and the
optional final attach (whose reported failures are swallowed). -/
def applyAsPrimary (hl : Hlet) (f : SciFile) (attach archive force : Bool) :
    PyOut :=
  match hverify hl with
  | .error e => ⟨f, some e, []⟩
  | .ok _ =>
  match verifyDest hl f with
  | .error e => ⟨f, some e, []⟩
  | .ok false => ⟨f, none, [Failure.originMismatch]⟩
  | .ok true =>
  match hgetStr (hl.hdus.headD []) "DISTNAME",
        hgetStr (f.hdus.headD (.plain [])).header "DISTNAME" with
  | none, _ => ⟨f, some Failure.missingMetadata, []⟩
  | some _, none => ⟨f, some Failure.missingMetadata, []⟩
  | some hldist, some fdist =>
  let distModelsEqual := hldist == fdist
  if !distModelsEqual && !force then
    ⟨f, some Failure.distortionModelConflict, []⟩
  else
  let numhlt := countExtn f "HDRLET"
  let hdrletExtnames := getHeaderletKwNames f "HDRNAME"
  let f := initWcscorr f
  match applyArchiveBlock hl f archive distModelsEqual numhlt hdrletExtnames with
  | .error e => ⟨f, some e, []⟩
  | .ok (f, origHltHdu, altHlethdu) =>
  match (if !distModelsEqual then do
      let f2 ← delDestWCS f
      -- append the headerlet's WCSDVARR / D2IMARR extensions last
      let nw := countExtnH hl.hdus "WCSDVARR"
      let nd := countExtnH hl.hdus "D2IMARR"
      let wc ← (List.range nw).mapM (fun i =>
        match findExtH hl.hdus "WCSDVARR" (Int.ofNat (i + 1)) with
        | some h => Except.ok h
        | none => Except.error Failure.missingMetadata)
      let dc ← (List.range nd).mapM (fun i =>
        match findExtH hl.hdus "D2IMARR" (Int.ofNat (i + 1)) with
        | some h => Except.ok h
        | none => Except.error Failure.missingMetadata)
      Except.ok { f2 with hdus := f2.hdus ++ (wc ++ dc).map SciHDU.plain }
    else Except.ok f : Except Failure SciFile) with
  | .error e => ⟨f, some e, []⟩
  | .ok f =>
  let f := { f with hdus := match f.hdus with
    | [] => []
    | u :: rest => u.withHeader (updateRefFiles (hl.hdus.headD []) u.header) :: rest }
  let numsip := countExtnH hl.hdus "SIPWCS"
  match (List.range numsip).foldlM (fun acc i =>
      copySipwcsStep hl distModelsEqual acc (i + 1)) f with
  | .error e => ⟨f, some e, []⟩
  | .ok f =>
  let f := updateWcscorr f hl true
  let f := if archive then
      match origHltHdu with
      | some hdu => { f with hdus := f.hdus ++ [hdu] }
      | none => f
    else f
  let f := { f with hdus := f.hdus ++ altHlethdu }
  if attach then
    let a := attachToFile hl f
    ⟨a.st, a.raised, []⟩
  else ⟨f, none, []⟩

/-! ## Selector-based entry points (`find_headerlet_HDUs`,
`extract_headerlet`, `restore_from_headerlet`,
`restore_all_with_distname`) -/

/-- `find_headerlet_HDUs(fobj, hdrext, hdrname, distname, strict)`
(lines 193–295): indices of the matching `HeaderletHDU` extensions.  With no
selector and `strict` it raises; an integer `hdrext` is checked directly
(the tuple form of `hdrext` is not exercised by any claim and is elided);
otherwise an extension matches when its `HDRNAME` equals `hdrname` or its
`DISTNAME` equals `distname` (reading a missing keyword raises `KeyError`);
an empty result raises. -/
def findHeaderletHDUs (f : SciFile) (hdrext : Option Int)
    (hdrname : Option String) (distname : Option String)
    (strict : Bool := true) : Except Failure (List Nat) := do
  let getAll ←
    if hdrext.isNone && hdrname.isNone && distname.isNone then
      if !strict then pure true else throw Failure.missingSelector
    else pure false
  let hdrlets ←
    match hdrext with
    | some i =>
      let ok := 0 ≤ i &&
        (match f.hdus[i.toNat]? with
         | some u => u.isHlet && extnameOf u.header == "HDRLET"
         | none => false)
      pure (if ok then [i.toNat] else [])
    | none =>
      (f.hdus.enum).foldlM (fun (acc : List Nat) ui => do
        let (i, u) := ui
        if u.isHlet then
          if getAll then pure (acc ++ [i])
          else do
            let hm ← match hdrname with
              | none => pure false
              | some n =>
                match hgetStr u.header "HDRNAME" with
                | some v => pure (n == v)
                | none => throw Failure.missingMetadata
            let dm ← match distname with
              | none => pure false
              | some d =>
                match hgetStr u.header "DISTNAME" with
                | some v => pure (d == v)
                | none => throw Failure.missingMetadata
            pure (if hm || dm then acc ++ [i] else acc)
        else pure acc) []
  if hdrlets.isEmpty then throw Failure.notFound
  pure hdrlets

/-- `extract_headerlet(filename, output, extnum, hdrname)` (lines 593–672)
for one already-open HDU list (so `close_fobj` is false and the raise guard
of lines 640–644, which sits inside `if close_fobj:`, is skipped): when
`hdrname` is given, the extension found for it is compared with `extnum`
with `!=` — so `extnum=None` never equals the found index and the call
raises even when exactly one entry matches; the embedded headerlet of the
selected extension is then serialized via `tofile`.  Returns the written
standalone file's HDU list. -/
def extractHeaderlet (f : SciFile) (extnum : Option Int)
    (hdrname : Option String) : Except Failure Hdulist := do
  let hdrhduIdx ←
    match hdrname with
    | some n => do
      let inds ← findHeaderletHDUs f none (some n) none
      let extnFromHdrname ← match inds.head? with
        | some i => Except.ok i
        | none => Except.error Failure.notFound
      if some (Int.ofNat extnFromHdrname) ≠ extnum then
        throw Failure.extnumMismatch
      else
        pure extnFromHdrname
    | none =>
      match extnum with
      | some i => pure i.toNat
      | none => throw Failure.typeError
  let content ← match f.hdus[hdrhduIdx]? with
    | some (.hlet _ c) => Except.ok c
    | some (.plain _) => Except.error Failure.notFound
    | none => Except.error Failure.indexError
  let hdrlet ← mkHeaderlet content
  tofile hdrlet

/-- `eval(ext.header['sciext'])` (line 1501): succeeds only on a
parenthesized tuple literal such as `"('SCI', 1)"`; the `"SCI, 1"` strings
that `create_headerlet` writes raise `NameError`, and a non-string value
raises `TypeError`. -/
def parseSciextEval (v : HVal) : Except Failure (String × Int) :=
  match v with
  | .num _ => .error Failure.sciextEvalError
  | .str s =>
    let t := strTrim s
    if strIsPre "(" t && strEndsWith t ")" then
      match strSplitOn (strDropRight (strDrop t 1) 1) "," with
      | [a, b] =>
        let nm := (((strSplitOn (strTrim a) "'").filter (· ≠ "")).headD (strTrim a))
        match strToInt (strTrim b) with
        | some n => .ok (nm, n)
        | none => .error Failure.sciextEvalError
      | _ => .error Failure.sciextEvalError
    else .error Failure.sciextEvalError

/-- `restore_from_headerlet(filename, hdrname, hdrext, archive, force)`
(lines 1438–1552): select exactly one `HeaderletHDU` (raising on an
ambiguous selector), parse its embedded headerlet, resolve each `SIPWCS`
part's destination extension via `eval`, apply the first distortion gate
(raising only when the models differ and both `archive` and `force` are
unset), resolve and — when `archive` is set and the name is not yet
archived — snapshot the current primary via `create_headerlet` +
`attach_to_file`, and finally run `apply_as_primary(attach=False, archive,
force)` (whose own gate raises whenever the models differ and `force` is
unset). -/
def restoreFromHeaderlet (f : SciFile) (hdrname : Option String)
    (hdrext : Option Int) (archive force : Bool) : PyOut :=
  match findHeaderletHDUs f hdrext hdrname none with
  | .error e => ⟨f, some e, []⟩
  | .ok inds =>
  if inds.length > 1 then ⟨f, some Failure.ambiguousSelector, []⟩
  else
  match inds.head? with
  | none => ⟨f, some Failure.notFound, []⟩
  | some idx =>
  let content := match f.hdus[idx]? with
    | some (.hlet _ c) => c
    | _ => []
  match mkHeaderlet content with
  | .error e => ⟨f, some e, []⟩
  | .ok hdrlet =>
  match (content.filter (fun h => extnameOf h == "SIPWCS")).mapM (fun h =>
      match hget h "SCIEXT" with
      | none => Except.error Failure.missingMetadata
      | some v => parseSciextEval v) with
  | .error e => ⟨f, some e, []⟩
  | .ok sciSels =>
  match hgetStr (content.headD []) "DISTNAME",
        hgetStr (f.hdus.headD (.plain [])).header "DISTNAME" with
  | none, _ => ⟨f, some Failure.missingMetadata, []⟩
  | some _, none => ⟨f, some Failure.missingMetadata, []⟩
  | some cur, some fd =>
  if cur ≠ fd && !archive && !force then
    ⟨f, some Failure.distortionModelConflict, []⟩
  else
  match sciSels.head? with
  | none => ⟨f, some Failure.indexError, []⟩
  | some (nm, v) =>
  match findExt f nm v with
  | none => ⟨f, some Failure.missingMetadata, []⟩
  | some sciU =>
  let scihdr := sciU.header
  let (f, priwcsHdrname) :=
    match hgetStr scihdr "HDRNAME" with
    | some hn => (f, hn)
    | none =>
      match hgetStr scihdr "WCSNAME" with
      | some wn => (f, wn)
      | none =>
        let pn := match hgetStr scihdr "IDCTAB" with
          | some idc => "IDC_" ++ extractRootname idc "_idc"
          | none => "UNKNOWN"
        (updExt f nm v (fun h => hupd h "WCSNAME" (.str pn)), pn)
  let priwcsUnique := verifyHdrnameIsUnique f priwcsHdrname
  match (if archive && priwcsUnique then
      match createHeaderlet f (.byName (extnameOf scihdr))
          (some priwcsHdrname) with
      | .error e => Except.error e
      | .ok newhdrlet =>
        let a := attachToFile newhdrlet f
        match a.raised with
        | some e => Except.error e
        | none => Except.ok a.st
    else Except.ok f : Except Failure SciFile) with
  | .error e => ⟨f, some e, []⟩
  | .ok f =>
  applyAsPrimary hdrlet f false archive force

/-- `restore_all_with_distname(filename, distname, primary, archive)`
(lines 1555–1664) with `primary` given as an `HDRNAME` string: find every
`HeaderletHDU` carrying `distname`, resolve the designated primary entry
(raising when none carries that name or its model differs from `distname`),
then loop over the matching entries restoring the designated one with
`apply_as_primary(attach=False, archive, force=True)` and every other one
with `apply_as_alternate(attach=False, wcsname=...)` — whose default
`wcskey=None` raises `AttributeError` (see `applyAsAlternate`), aborting
the loop. -/
def restoreAllWithDistname (f : SciFile) (distname : String)
    (primary : String) (archive : Bool) : PyOut :=
  match findHeaderletHDUs f none none (some distname) with
  | .error e => ⟨f, some e, []⟩
  | .ok inds =>
  match inds.find? (fun i =>
      match f.hdus[i]? with
      | some u => (hgetStr u.header "HDRNAME").getD "" == primary
      | none => false) with
  | none => ⟨f, some Failure.notFound, []⟩
  | some primaryInd =>
  let priContent := match f.hdus[primaryInd]? with
    | some (.hlet _ c) => c
    | _ => []
  match hgetStr (priContent.headD []) "DISTNAME" with
  | none => ⟨f, some Failure.missingMetadata, []⟩
  | some priDistname =>
  if priDistname ≠ distname then ⟨f, some Failure.distortionModelConflict, []⟩
  else
  -- loop over the matching HeaderletHDUs, threading the file state;
  -- an exception from either apply aborts the remainder of the loop
  (inds.foldl (fun (acc : PyOut) i =>
    match acc.raised with
    | some _ => acc
    | none =>
      match f.hdus[i]? with
      | some u =>
        if (hgetStr u.header "DISTNAME").getD "" == distname then
          let content := match u with
            | .hlet _ c => c
            | .plain _ => []
          match mkHeaderlet content with
          | .error e => ⟨acc.st, some e, acc.reported⟩
          | .ok hdrlet =>
            if i == primaryInd then
              let r := applyAsPrimary hdrlet acc.st false archive true
              ⟨r.st, r.raised, acc.reported ++ r.reported⟩
            else
              let r := applyAsAlternate hdrlet acc.st false none
                (some ((hgetStr (content.headD []) "WCSNAME").getD ""))
              ⟨r.st, r.raised, acc.reported ++ r.reported⟩
        else acc
      | none => acc) ⟨f, none, []⟩)

/-! ## Concrete fixtures used by the claim theorems and witnesses -/

/-- Fallback `Hlet` for total pattern matches in fixture definitions. -/
def defaultHlet : Hlet where
  hdus := []
  hdrname := HVal.str ""
  wcsname := HVal.str ""
  upwcsver := HVal.str ""
  pywcsver := HVal.str ""
  destim := HVal.str ""
  sipname := HVal.str ""
  npolfile := HVal.str ""
  d2imfile := HVal.str ""
  distname := HVal.str ""
  vafactor := HVal.num 1
  author := HVal.str ""
  descrip := HVal.str ""
  history := ""

/-- Primary header of the example science file: origin `OBS1`, distortion
model `M1`. -/
def priHdrA : Header := [⟨"ROOTNAME", .str "OBS1"⟩, ⟨"DISTNAME", .str "M1"⟩]

/-- Its single `SCI` image extension, primary solution named `W1`. -/
def sciHdrA : Header := [
  ⟨"XTENSION", .str "IMAGE"⟩, ⟨"EXTNAME", .str "SCI"⟩, ⟨"EXTVER", .num 1⟩,
  ⟨"WCSNAME", .str "W1"⟩,
  ⟨"CRVAL1", .num 10⟩, ⟨"CRVAL2", .num 20⟩,
  ⟨"CRPIX1", .num 100⟩, ⟨"CRPIX2", .num 200⟩,
  ⟨"CD1_1", .num 1⟩, ⟨"CD1_2", .num 0⟩, ⟨"CD2_1", .num 0⟩, ⟨"CD2_2", .num 1⟩,
  ⟨"CTYPE1", .str "RA---TAN"⟩, ⟨"CTYPE2", .str "DEC--TAN"⟩]

/-- The example science file. -/
def fileA : SciFile := ⟨[.plain priHdrA, .plain sciHdrA], []⟩

/-- Primary header of a well-formed headerlet `H2` for origin `OBS1` with
distortion model `M2` (different from `fileA`'s `M1`). -/
def hletPri2 : Header := [
  ⟨"DESTIM", .str "OBS1"⟩, ⟨"HDRNAME", .str "H2"⟩,
  ⟨"DATE", .str "2012-01-01T00:00:00"⟩,
  ⟨"WCSNAME", .str "W2"⟩, ⟨"DISTNAME", .str "M2"⟩,
  ⟨"SIPNAME", .str "S2"⟩, ⟨"NPOLFILE", .str "N2"⟩, ⟨"D2IMFILE", .str "D2"⟩,
  ⟨"AUTHOR", .str "A"⟩, ⟨"DESCRIP", .str "D"⟩,
  ⟨"RMS_RA", .num 0⟩, ⟨"RMS_DEC", .num 0⟩, ⟨"NMATCH", .num 0⟩,
  ⟨"CATALOG", .str "C"⟩,
  ⟨"UPWCSVER", .str "1.0"⟩, ⟨"PYWCSVER", .str "1.0"⟩]

/-- Its single `SIPWCS` part, targeting `('SCI', 1)` in the `"SCI, 1"` form
that `create_headerlet` writes. -/
def hletSip2 : Header := [
  ⟨"EXTNAME", .str "SIPWCS"⟩, ⟨"EXTVER", .num 1⟩,
  ⟨"CRVAL1", .num 11⟩, ⟨"CRVAL2", .num 21⟩,
  ⟨"CRPIX1", .num 101⟩, ⟨"CRPIX2", .num 201⟩,
  ⟨"CD1_1", .num 2⟩, ⟨"CD1_2", .num 0⟩, ⟨"CD2_1", .num 0⟩, ⟨"CD2_2", .num 2⟩,
  ⟨"CTYPE1", .str "RA---TAN"⟩, ⟨"CTYPE2", .str "DEC--TAN"⟩,
  ⟨"SCIEXT", .str "SCI, 1"⟩]

/-- The same part with the `SCIEXT` value written as the parenthesized
tuple literal that `restore_from_headerlet`'s `eval` needs. -/
def hletSipT : Header := hupd hletSip2 "SCIEXT" (.str "('SCI', 1)")

/-- Headerlet `H2` as a parsed object. -/
def hlet2 : Hlet := match mkHeaderlet [hletPri2, hletSip2] with
  | .ok h => h
  | .error _ => defaultHlet

/-- A headerlet differing from `hlet2` only in its recorded origin. -/
def hletX : Hlet := match mkHeaderlet [hupd hletPri2 "DESTIM" (.str "OTHER"),
    hletSip2] with
  | .ok h => h
  | .error _ => defaultHlet

/-- A headerlet with the same name `H2` as `hlet2` but different content. -/
def hlet2b : Hlet := match mkHeaderlet [hupd hletPri2 "WCSNAME" (.str "W2B"),
    hletSip2] with
  | .ok h => h
  | .error _ => defaultHlet

/-- A headerlet named `H3` (a name different from `hlet2`'s `H2`). -/
def hlet3 : Hlet := match mkHeaderlet [hupd (hupd hletPri2 "HDRNAME"
    (.str "H3")) "WCSNAME" (.str "W3"), hletSip2] with
  | .ok h => h
  | .error _ => defaultHlet

/-- Science file whose primary header records the distortion model
`UNKNOWN`. -/
def fileU : SciFile :=
  ⟨[.plain [⟨"ROOTNAME", .str "OBS1"⟩, ⟨"DISTNAME", .str "UNKNOWN"⟩],
    .plain sciHdrA], []⟩

/-- Science file whose primary header carries no `DISTNAME` at all. -/
def fileN : SciFile := ⟨[.plain [⟨"ROOTNAME", .str "OBS1"⟩],
  .plain sciHdrA], []⟩

/-- A headerlet whose own distortion model is also `UNKNOWN`. -/
def hletU : Hlet := match mkHeaderlet [hupd hletPri2 "DISTNAME"
    (.str "UNKNOWN"), hletSipT] with
  | .ok h => h
  | .error _ => defaultHlet

/-- Primary header of a headerlet named `W1` with model `M1` (a snapshot of
`fileA`'s current primary). -/
def hletPriW1 : Header := [
  ⟨"DESTIM", .str "OBS1"⟩, ⟨"HDRNAME", .str "W1"⟩,
  ⟨"DATE", .str "2012-01-01T00:00:00"⟩,
  ⟨"WCSNAME", .str "W1"⟩, ⟨"DISTNAME", .str "M1"⟩,
  ⟨"SIPNAME", .str "S1"⟩, ⟨"NPOLFILE", .str "N1"⟩, ⟨"D2IMFILE", .str "D1"⟩,
  ⟨"AUTHOR", .str "A"⟩, ⟨"DESCRIP", .str "D"⟩,
  ⟨"RMS_RA", .num 0⟩, ⟨"RMS_DEC", .num 0⟩, ⟨"NMATCH", .num 0⟩,
  ⟨"CATALOG", .str "C"⟩,
  ⟨"UPWCSVER", .str "1.0"⟩, ⟨"PYWCSVER", .str "1.0"⟩]

/-- Extension header of the embedded-headerlet HDU holding `W1`. -/
def entryHdrW1 : Header := [
  ⟨"XTENSION", .str "FITS"⟩, ⟨"EXTNAME", .str "HDRLET"⟩, ⟨"EXTVER", .num 1⟩,
  ⟨"HDRNAME", .str "W1"⟩, ⟨"DISTNAME", .str "M1"⟩]

/-- Extension header of the embedded-headerlet HDU holding `H2`. -/
def entryHdrH2 : Header := [
  ⟨"XTENSION", .str "FITS"⟩, ⟨"EXTNAME", .str "HDRLET"⟩, ⟨"EXTVER", .num 2⟩,
  ⟨"HDRNAME", .str "H2"⟩, ⟨"DISTNAME", .str "M2"⟩]

/-- Science file with model `M1`, its current primary already archived as
entry `W1`, and a different-model (`M2`) headerlet archived as entry `H2`:
the input for restoring `H2` with `archive=True`. -/
def fileC : SciFile := ⟨[.plain priHdrA, .plain sciHdrA,
  .hlet entryHdrW1 [hletPriW1, hletSipT],
  .hlet entryHdrH2 [hletPri2, hletSipT]], []⟩

/-- Science file holding exactly one archived headerlet, named `H2` (at
extension index 2). -/
def fileD : SciFile := ⟨[.plain priHdrA, .plain sciHdrA,
  .hlet entryHdrH2 [hletPri2, hletSipT]], []⟩

/-- A second same-model (`M1`) headerlet entry named `H4`. -/
def entryHdrH4 : Header := [
  ⟨"XTENSION", .str "FITS"⟩, ⟨"EXTNAME", .str "HDRLET"⟩, ⟨"EXTVER", .num 2⟩,
  ⟨"HDRNAME", .str "H4"⟩, ⟨"DISTNAME", .str "M1"⟩]

/-- Science file with two archived headerlets sharing model `M1` (`W1` and
`H4`): the input for `restore_all_with_distname`. -/
def fileE : SciFile := ⟨[.plain priHdrA, .plain sciHdrA,
  .hlet entryHdrW1 [hletPriW1, hletSipT],
  .hlet entryHdrH4 [hupd (hupd hletPriW1 "HDRNAME" (.str "H4")) "WCSNAME"
    (.str "W4"), hletSipT]], []⟩

/-- The headerlet created from `fileA` under the name `HL1`. -/
def hl7 : Hlet := match createHeaderlet fileA (.byName "SCI") (some "HL1") with
  | .ok h => h
  | .error _ => defaultHlet

set_option maxRecDepth 8000

/-! ## Claim theorems -/

/-- C1: for `fileA` (origin `OBS1`, primary model `M1`) and the
matching-origin headerlet `hlet2` (model `M2 ≠ M1`), the first half of the
claim holds: `apply_as_primary(force=False, archive=False)` raises the
model conflict.  The second half fails on the code: for every
`attach`/`archive` combination, `apply_as_primary(force=True)` raises
`NameError` — `_remove_primary_WCS` (line 2499) references the undefined
module name `hdr_logger` — so the operation never succeeds, and the
destination's primary `DISTNAME` is never updated (`update_ref_files`
copies only `IDCTAB`/`NPOLFILE`/`D2IMFILE`). -/
theorem C1_force_apply_crashes :
    (applyAsPrimary hlet2 fileA false false false).raised =
      some Failure.distortionModelConflict ∧
    ∀ (attach archive : Bool),
      (applyAsPrimary hlet2 fileA attach archive true).raised =
        some Failure.nameErrorHdrLogger :=
  ⟨rfl, by intro a b; cases a <;> cases b <;> rfl⟩

/-- C2: restoring the different-model (`M2`) entry `H2` into `fileC`
(model `M1`, its current primary already archived) with `archive=True` and
`force=False` still raises `DistortionModelConflict`: the gate inside
`apply_as_primary` (line 1891) fires whenever the models differ and `force`
is unset, regardless of `archive`, contradicting the claim (and both
functions' docstrings) that `archive=True` suffices to overwrite the
primary. -/
theorem C2_restore_archive_still_conflicts :
    restoreFromHeaderlet fileC (some "H2") none true false =
      ⟨fileC, some Failure.distortionModelConflict, []⟩ := rfl

/-- C3: `apply_as_alternate` with the key left unspecified (`wcskey=None`,
the documented default) raises `AttributeError` at `wcskey.upper()`
(line 2081) for every destination file, before the key allocator of
line 2120 — which is unreachable — could run; consequently
`restore_all_with_distname`, which installs the non-primary matching
entries through exactly that call (line 1659), raises the same error on a
file with two matching entries. -/
theorem C3_alternate_default_key_crashes :
    (∀ (f : SciFile) (attach : Bool) (w : Option String),
      (applyAsAlternate hlet2 f attach none w).raised =
        some Failure.attributeNoneUpper) ∧
    (restoreAllWithDistname fileE "M1" "W1" false).raised =
      some Failure.attributeNoneUpper :=
  ⟨fun _ _ _ => rfl, rfl⟩

/-- C6: `fileD` holds exactly one archived headerlet, named `H2` (at
extension index 2), and the name selector alone does find it; yet
`extract_headerlet` called with that name and no extension number raises,
because line 647 compares the found index with `extnum=None` using `!=`;
supplying the redundant `extnum=2` is the only way the extraction
succeeds. -/
theorem C6_extract_by_name_raises :
    findHeaderletHDUs fileD none (some "H2") none = Except.ok [2] ∧
    extractHeaderlet fileD none (some "H2") =
      Except.error Failure.extnumMismatch ∧
    extractHeaderlet fileD (some 2) (some "H2") =
      Except.ok [hletPri2, hletSipT] :=
  ⟨rfl, rfl, rfl⟩

/-- C8: the destination strip that `apply_as_primary` runs before writing a
different-model headerlet never completes: `_del_dest_WCS` raises
`NameError` at `_remove_primary_WCS` (undefined name `hdr_logger`,
line 2499) on the first `IMAGE` extension, after removing only that
extension's D2IM/SIP/lookup-table keywords — so the claimed complete strip
of every distortion-dependent keyword (linear WCS, alternates, arrays)
never happens. -/
theorem C8_strip_crashes_midway :
    delDestWCS fileA = Except.error Failure.nameErrorHdrLogger ∧
    removePrimaryWCS sciHdrA = Except.error Failure.nameErrorHdrLogger :=
  ⟨rfl, rfl⟩

/-- Updating the value stored under key `k` leaves lookups of any other key
unchanged. -/
theorem hget_map_upd (h : Header) (k k' : String) (v : HVal) (hne : k' ≠ k) :
    hget (h.map (fun c => if c.key == k then { c with val := v } else c)) k' =
      hget h k' := by
  induction h with
  | nil => rfl
  | cons c t ih =>
    have hkey : (if c.key == k then ({ c with val := v } : Card) else c).key
        = c.key := by split <;> rfl
    unfold hget at *
    simp only [List.map_cons, List.find?_cons, hkey]
    by_cases hk : (c.key == k') = true
    · have hceq : c.key = k' := by simpa using hk
      have hck : (c.key == k) = false :=
        beq_eq_false_iff_ne.mpr (hceq ▸ hne)
      simp [hk, hck]
    · simp only [Bool.not_eq_true] at hk
      simp only [hk, cond_false]
      exact ih

/-- Appending a card with a different key does not change a lookup. -/
theorem hget_append_ne (h : Header) (k k' : String) (v : HVal)
    (hne : k' ≠ k) :
    hget (h ++ [⟨k, v⟩]) k' = hget h k' := by
  induction h with
  | nil =>
    have : (k == k') = false := beq_eq_false_iff_ne.mpr (Ne.symm hne)
    simp [hget, List.find?, this]
  | cons c t ih =>
    unfold hget at *
    simp only [List.cons_append, List.find?_cons]
    by_cases hk : (c.key == k') = true
    · simp [hk]
    · simp only [Bool.not_eq_true] at hk
      simp only [hk, cond_false]
      exact ih

/-- `hupd` on key `k` does not disturb lookups of a different key. -/
theorem hget_hupd_ne (h : Header) (k : String) (v : HVal) (k' : String)
    (hne : k' ≠ k) : hget (hupd h k v) k' = hget h k' := by
  unfold hupd
  split
  · exact hget_map_upd h k k' v hne
  · exact hget_append_ne h k k' v hne

/-- The head of `l ++ [x]` is the head of `l` when `l` is nonempty. -/
theorem head?_append_left {α : Type} (l : List α) (x : α) (h : l ≠ []) :
    (l ++ [x]).head? = l.head? := by
  cases l with
  | nil => exact absurd rfl h
  | cons a t => rfl

/-- Characterisation of `fromHeaderletHDU`: on success the produced extension
header is the fixed nine-card block (built from the primary header of the
headerlet) with `EXTVER` stamped afterwards via `hupd`. -/
theorem fromHeaderletHDU_shape (hl : Hlet) (hdr : Header)
    (h : fromHeaderletHDU hl = Except.ok hdr) :
    ∃ hn dt sn wn dn np d2,
      hget (hl.hdus.headD []) "HDRNAME" = some hn ∧
      hdr = [⟨"XTENSION", .str "FITS"⟩, ⟨"HDRNAME", hn⟩, ⟨"DATE", dt⟩,
        ⟨"SIPNAME", sn⟩, ⟨"WCSNAME", wn⟩, ⟨"DISTNAME", dn⟩,
        ⟨"NPOLFILE", np⟩, ⟨"D2IMFILE", d2⟩,
        ⟨"EXTNAME", .str "HDRLET"⟩] := by
  unfold fromHeaderletHDU at h
  cases h1 : hget (hl.hdus.headD []) "HDRNAME" with
  | none => (simp only [bind, Except.bind, h1] at h; exact Except.noConfusion h)
  | some hn =>
  cases h2 : hget (hl.hdus.headD []) "DATE" with
  | none => (simp only [bind, Except.bind, h1, h2] at h; exact Except.noConfusion h)
  | some dt =>
  cases h4 : hget (hl.hdus.headD []) "WCSNAME" with
  | none =>
    cases h3 : hget (hl.hdus.headD []) "SIPNAME" with
    | none => (simp only [bind, Except.bind, h1, h2, h3, h4] at h; exact Except.noConfusion h)
    | some sn => (simp only [bind, Except.bind, h1, h2, h3, h4] at h; exact Except.noConfusion h)
  | some wn =>
  cases h5 : hget (hl.hdus.headD []) "DISTNAME" with
  | none =>
    cases h3 : hget (hl.hdus.headD []) "SIPNAME" with
    | none => (simp only [bind, Except.bind, h1, h2, h3, h4, h5] at h; exact Except.noConfusion h)
    | some sn => (simp only [bind, Except.bind, h1, h2, h3, h4, h5] at h; exact Except.noConfusion h)
  | some dn =>
  cases h6 : hget (hl.hdus.headD []) "NPOLFILE" with
  | none =>
    cases h3 : hget (hl.hdus.headD []) "SIPNAME" with
    | none => (simp only [bind, Except.bind, h1, h2, h3, h4, h5, h6] at h; exact Except.noConfusion h)
    | some sn => (simp only [bind, Except.bind, h1, h2, h3, h4, h5, h6] at h; exact Except.noConfusion h)
  | some np =>
  cases h7 : hget (hl.hdus.headD []) "D2IMFILE" with
  | none =>
    cases h3 : hget (hl.hdus.headD []) "SIPNAME" with
    | none => (simp only [bind, Except.bind, h1, h2, h3, h4, h5, h6, h7] at h; exact Except.noConfusion h)
    | some sn => (simp only [bind, Except.bind, h1, h2, h3, h4, h5, h6, h7] at h; exact Except.noConfusion h)
  | some d2 =>
  cases h3 : hget (hl.hdus.headD []) "SIPNAME" with
  | none =>
    simp only [bind, Except.bind, h1, h2, h3, h4, h5, h6, h7,
      Except.ok.injEq] at h
    exact ⟨hn, dt, wn, wn, dn, np, d2, rfl, h.symm⟩
  | some sn =>
    simp only [bind, Except.bind, h1, h2, h3, h4, h5, h6, h7,
      Except.ok.injEq] at h
    exact ⟨hn, dt, sn, wn, dn, np, d2, rfl, h.symm⟩

/-- When every guard of `attachToFile` passes, the result appends exactly one
`HeaderletHDU` to the science file and records the rows produced by
`updateWcscorr`, reporting nothing. -/
theorem attach_ok_shape (hl : Hlet) (f : SciFile) (hdr : Header)
    (hv : hverify hl = Except.ok ())
    (hd : verifyDest hl f = Except.ok true)
    (hu : verifyHdrname hl f = true)
    (hfrom : fromHeaderletHDU hl = Except.ok hdr) :
    attachToFile hl f = ⟨updateWcscorr
      { f with hdus := f.hdus ++ [SciHDU.hlet
          (hupd hdr "EXTVER" (.num ((countExtn f "HDRLET" : Int) + 1)))
          hl.hdus] } hl false, none, []⟩ := by
  simp [attachToFile, hv, hd, hu, hfrom]

/-- `getHeaderletKwNames` over an extended HDU list splits into the old names
plus the new entry card value. -/
theorem names_append (l : List SciHDU) (H : Header) (c : Hdulist)
    (r : List ProvRow) (kw : String) :
    getHeaderletKwNames ⟨l ++ [SciHDU.hlet H c], r⟩ kw =
      getHeaderletKwNames ⟨l, r⟩ kw ++ [(hgetStr H kw).getD ""] := by
  simp [getHeaderletKwNames, List.filter_append, SciHDU.isHlet, SciHDU.header]

/-- Counting `EXTNAME` matches distributes over appending one HDU. -/
theorem countExtn_append (l : List SciHDU) (x : SciHDU)
    (r r2 : List ProvRow) (n : String) :
    countExtn ⟨l ++ [x], r⟩ n =
      countExtn ⟨l, r2⟩ n + (if extnameOf x.header == n then 1 else 0) := by
  simp only [countExtn, List.filter_append]
  split <;> simp_all

/-- `verifyDest` only looks at the first HDU, so it is stable under any change
that preserves the head of the HDU list. -/
theorem verifyDest_hdus (h : Hlet) (f g : SciFile)
    (he : g.hdus.head? = f.hdus.head?) : verifyDest h g = verifyDest h f := by
  unfold verifyDest
  rw [he]

/-- C5: attaching headerlets in sequence enforces the unique-`HDRNAME`
invariant. Attaching `h1` to a file `f` (all guards passing) succeeds and
reports nothing; a second attach of `h2`, whose `HDRNAME` equals the name just
stored by `h1`, is refused — the duplicate-name failure is reported and the
file is left unchanged; a subsequent attach of `h3` with a fresh name succeeds,
so the file ends up with exactly two more `HDRLET` extensions than it started
with. -/
theorem C5_duplicate_name_guard (f : SciFile) (h1 h2 h3 : Hlet)
    (hdr1 hdr3 : Header)
    (hne : f.hdus ≠ [])
    (hv1 : hverify h1 = Except.ok ()) (hv2 : hverify h2 = Except.ok ())
    (hv3 : hverify h3 = Except.ok ())
    (hd1 : verifyDest h1 f = Except.ok true)
    (hd2 : verifyDest h2 f = Except.ok true)
    (hd3 : verifyDest h3 f = Except.ok true)
    (hu1 : verifyHdrname h1 f = true)
    (hu3 : verifyHdrname h3 f = true)
    (hfrom1 : fromHeaderletHDU h1 = Except.ok hdr1)
    (hfrom3 : fromHeaderletHDU h3 = Except.ok hdr3)
    (hsame : h2.hdrname.asStr =
      (hgetStr (h1.hdus.headD []) "HDRNAME").getD "")
    (hdiff : h3.hdrname.asStr ≠
      (hgetStr (h1.hdus.headD []) "HDRNAME").getD "") :
    (attachToFile h1 f).raised = none ∧
    (attachToFile h1 f).reported = [] ∧
    (attachToFile h2 (attachToFile h1 f).st).reported =
      [Failure.duplicateName] ∧
    (attachToFile h2 (attachToFile h1 f).st).st = (attachToFile h1 f).st ∧
    (attachToFile h3 (attachToFile h1 f).st).raised = none ∧
    (attachToFile h3 (attachToFile h1 f).st).reported = [] ∧
    countExtn (attachToFile h3 (attachToFile h1 f).st).st "HDRLET" =
      countExtn f "HDRLET" + 2 := by
  obtain ⟨hn1, dt1, sn1, wn1, dn1, np1, d21, hget1, hshape1⟩ :=
    fromHeaderletHDU_shape h1 hdr1 hfrom1
  subst hshape1
  obtain ⟨hn3, dt3, sn3, wn3, dn3, np3, d23, hget3, hshape3⟩ :=
    fromHeaderletHDU_shape h3 hdr3 hfrom3
  subst hshape3
  have h1eq := attach_ok_shape h1 f _ hv1 hd1 hu1 hfrom1
  rw [h1eq]
  have hgs1 : (hgetStr (h1.hdus.headD []) "HDRNAME").getD "" = hn1.asStr := by
    unfold hgetStr
    rw [hget1]
    rfl
  have hsame1 : h2.hdrname.asStr = hn1.asStr := hsame.trans hgs1
  have hdiff1 : h3.hdrname.asStr ≠ hn1.asStr := fun hh => hdiff (hh.trans hgs1.symm)
  have hname1 : (hgetStr (hupd
      [⟨"XTENSION", .str "FITS"⟩, ⟨"HDRNAME", hn1⟩, ⟨"DATE", dt1⟩,
        ⟨"SIPNAME", sn1⟩, ⟨"WCSNAME", wn1⟩, ⟨"DISTNAME", dn1⟩,
        ⟨"NPOLFILE", np1⟩, ⟨"D2IMFILE", d21⟩, ⟨"EXTNAME", .str "HDRLET"⟩]
      "EXTVER" (.num ((countExtn f "HDRLET" : Int) + 1))) "HDRNAME") =
      some hn1.asStr := rfl
  have names1 : getHeaderletKwNames (updateWcscorr
      { f with hdus := f.hdus ++ [SciHDU.hlet (hupd
          [⟨"XTENSION", .str "FITS"⟩, ⟨"HDRNAME", hn1⟩, ⟨"DATE", dt1⟩,
            ⟨"SIPNAME", sn1⟩, ⟨"WCSNAME", wn1⟩, ⟨"DISTNAME", dn1⟩,
            ⟨"NPOLFILE", np1⟩, ⟨"D2IMFILE", d21⟩,
            ⟨"EXTNAME", .str "HDRLET"⟩]
          "EXTVER" (.num ((countExtn f "HDRLET" : Int) + 1))) h1.hdus] }
      h1 false) "HDRNAME" =
      getHeaderletKwNames f "HDRNAME" ++ [hn1.asStr] := by
    have hx := names_append f.hdus (hupd
      [⟨"XTENSION", .str "FITS"⟩, ⟨"HDRNAME", hn1⟩, ⟨"DATE", dt1⟩,
        ⟨"SIPNAME", sn1⟩, ⟨"WCSNAME", wn1⟩, ⟨"DISTNAME", dn1⟩,
        ⟨"NPOLFILE", np1⟩, ⟨"D2IMFILE", d21⟩, ⟨"EXTNAME", .str "HDRLET"⟩]
      "EXTVER" (.num ((countExtn f "HDRLET" : Int) + 1))) h1.hdus
      f.wcsRows "HDRNAME"
    rw [hname1] at hx
    exact hx
  have hhead : ((updateWcscorr
      { f with hdus := f.hdus ++ [SciHDU.hlet (hupd
          [⟨"XTENSION", .str "FITS"⟩, ⟨"HDRNAME", hn1⟩, ⟨"DATE", dt1⟩,
            ⟨"SIPNAME", sn1⟩, ⟨"WCSNAME", wn1⟩, ⟨"DISTNAME", dn1⟩,
            ⟨"NPOLFILE", np1⟩, ⟨"D2IMFILE", d21⟩,
            ⟨"EXTNAME", .str "HDRLET"⟩]
          "EXTVER" (.num ((countExtn f "HDRLET" : Int) + 1))) h1.hdus] }
      h1 false).hdus).head? = f.hdus.head? :=
    head?_append_left f.hdus _ hne
  have hd2q : verifyDest h2 (updateWcscorr
      { f with hdus := f.hdus ++ [SciHDU.hlet (hupd
          [⟨"XTENSION", .str "FITS"⟩, ⟨"HDRNAME", hn1⟩, ⟨"DATE", dt1⟩,
            ⟨"SIPNAME", sn1⟩, ⟨"WCSNAME", wn1⟩, ⟨"DISTNAME", dn1⟩,
            ⟨"NPOLFILE", np1⟩, ⟨"D2IMFILE", d21⟩,
            ⟨"EXTNAME", .str "HDRLET"⟩]
          "EXTVER" (.num ((countExtn f "HDRLET" : Int) + 1))) h1.hdus] }
      h1 false) = Except.ok true :=
    (verifyDest_hdus h2 f _ hhead).trans hd2
  have hd3q : verifyDest h3 (updateWcscorr
      { f with hdus := f.hdus ++ [SciHDU.hlet (hupd
          [⟨"XTENSION", .str "FITS"⟩, ⟨"HDRNAME", hn1⟩, ⟨"DATE", dt1⟩,
            ⟨"SIPNAME", sn1⟩, ⟨"WCSNAME", wn1⟩, ⟨"DISTNAME", dn1⟩,
            ⟨"NPOLFILE", np1⟩, ⟨"D2IMFILE", d21⟩,
            ⟨"EXTNAME", .str "HDRLET"⟩]
          "EXTVER" (.num ((countExtn f "HDRLET" : Int) + 1))) h1.hdus] }
      h1 false) = Except.ok true :=
    (verifyDest_hdus h3 f _ hhead).trans hd3
  have hu2q : verifyHdrname h2 (updateWcscorr
      { f with hdus := f.hdus ++ [SciHDU.hlet (hupd
          [⟨"XTENSION", .str "FITS"⟩, ⟨"HDRNAME", hn1⟩, ⟨"DATE", dt1⟩,
            ⟨"SIPNAME", sn1⟩, ⟨"WCSNAME", wn1⟩, ⟨"DISTNAME", dn1⟩,
            ⟨"NPOLFILE", np1⟩, ⟨"D2IMFILE", d21⟩,
            ⟨"EXTNAME", .str "HDRLET"⟩]
          "EXTVER" (.num ((countExtn f "HDRLET" : Int) + 1))) h1.hdus] }
      h1 false) = false := by
    simp [verifyHdrname, verifyHdrnameIsUnique, names1, hsame1]
  have hu3q : verifyHdrname h3 (updateWcscorr
      { f with hdus := f.hdus ++ [SciHDU.hlet (hupd
          [⟨"XTENSION", .str "FITS"⟩, ⟨"HDRNAME", hn1⟩, ⟨"DATE", dt1⟩,
            ⟨"SIPNAME", sn1⟩, ⟨"WCSNAME", wn1⟩, ⟨"DISTNAME", dn1⟩,
            ⟨"NPOLFILE", np1⟩, ⟨"D2IMFILE", d21⟩,
            ⟨"EXTNAME", .str "HDRLET"⟩]
          "EXTVER" (.num ((countExtn f "HDRLET" : Int) + 1))) h1.hdus] }
      h1 false) = true := by
    have hu3x : h3.hdrname.asStr ∉ getHeaderletKwNames f "HDRNAME" := by
      simpa [verifyHdrname, verifyHdrnameIsUnique] using hu3
    simp [verifyHdrname, verifyHdrnameIsUnique, names1, hu3x, hdiff1]
  have hatt2 : attachToFile h2 (updateWcscorr
      { f with hdus := f.hdus ++ [SciHDU.hlet (hupd
          [⟨"XTENSION", .str "FITS"⟩, ⟨"HDRNAME", hn1⟩, ⟨"DATE", dt1⟩,
            ⟨"SIPNAME", sn1⟩, ⟨"WCSNAME", wn1⟩, ⟨"DISTNAME", dn1⟩,
            ⟨"NPOLFILE", np1⟩, ⟨"D2IMFILE", d21⟩,
            ⟨"EXTNAME", .str "HDRLET"⟩]
          "EXTVER" (.num ((countExtn f "HDRLET" : Int) + 1))) h1.hdus] }
      h1 false) = ⟨updateWcscorr
      { f with hdus := f.hdus ++ [SciHDU.hlet (hupd
          [⟨"XTENSION", .str "FITS"⟩, ⟨"HDRNAME", hn1⟩, ⟨"DATE", dt1⟩,
            ⟨"SIPNAME", sn1⟩, ⟨"WCSNAME", wn1⟩, ⟨"DISTNAME", dn1⟩,
            ⟨"NPOLFILE", np1⟩, ⟨"D2IMFILE", d21⟩,
            ⟨"EXTNAME", .str "HDRLET"⟩]
          "EXTVER" (.num ((countExtn f "HDRLET" : Int) + 1))) h1.hdus] }
      h1 false, none, [Failure.duplicateName]⟩ := by
    simp [attachToFile, hv2, hd2q, hu2q]
  have h3eq := attach_ok_shape h3 _ _ hv3 hd3q hu3q hfrom3
  rw [hatt2, h3eq]
  refine ⟨rfl, rfl, rfl, rfl, rfl, rfl, ?_⟩
  have hextgen1 : ∀ v : HVal, (extnameOf (hupd
      [⟨"XTENSION", .str "FITS"⟩, ⟨"HDRNAME", hn1⟩, ⟨"DATE", dt1⟩,
        ⟨"SIPNAME", sn1⟩, ⟨"WCSNAME", wn1⟩, ⟨"DISTNAME", dn1⟩,
        ⟨"NPOLFILE", np1⟩, ⟨"D2IMFILE", d21⟩, ⟨"EXTNAME", .str "HDRLET"⟩]
      "EXTVER" v) == "HDRLET") = true := fun _ => rfl
  have hextgen3 : ∀ v : HVal, (extnameOf (hupd
      [⟨"XTENSION", .str "FITS"⟩, ⟨"HDRNAME", hn3⟩, ⟨"DATE", dt3⟩,
        ⟨"SIPNAME", sn3⟩, ⟨"WCSNAME", wn3⟩, ⟨"DISTNAME", dn3⟩,
        ⟨"NPOLFILE", np3⟩, ⟨"D2IMFILE", d23⟩, ⟨"EXTNAME", .str "HDRLET"⟩]
      "EXTVER" v) == "HDRLET") = true := fun _ => rfl
  simp only [updateWcscorr]
  simp only [countExtn, List.filter_append, List.length_append]
  simp [SciHDU.header, hextgen1, hextgen3]

/-- C4: when the headerlet verifies but the destination check reports an
origin mismatch (`verify_dest` false), `apply_as_primary` refuses to modify
the file — it reports the mismatch and returns the file unchanged — and
`attach_to_file`, which runs the same check, likewise leaves the file's state
untouched while recording the origin mismatch among its reports. -/
theorem C4_origin_guard (hl : Hlet) (f : SciFile) (attach archive force : Bool)
    (hv : hverify hl = Except.ok ())
    (hd : verifyDest hl f = Except.ok false) :
    applyAsPrimary hl f attach archive force =
      ⟨f, none, [Failure.originMismatch]⟩ ∧
    (attachToFile hl f).st = f ∧
    (attachToFile hl f).raised = none ∧
    Failure.originMismatch ∈ (attachToFile hl f).reported := by
  refine ⟨?_, ?_, ?_, ?_⟩
  · simp [applyAsPrimary, hv, hd]
  · simp [attachToFile, hv, hd]
  · simp [attachToFile, hv, hd]
  · simp [attachToFile, hv, hd]

/-- C10: `apply_as_alternate` refuses to install an alternate WCS into a file
whose primary distortion model is `UNKNOWN` — whether because the science
file's first header carries `DISTNAME = UNKNOWN` or carries no `DISTNAME`
card at all (the lookup then defaults to `UNKNOWN`): the distortion-model
conflict is raised and the file is returned unchanged. -/
theorem C10_gate (hl : Hlet) (f : SciFile) (attach : Bool) (k : String)
    (w : Option String)
    (hv : hverify hl = Except.ok ())
    (hd : verifyDest hl f = Except.ok true)
    (hu : (hgetStr (f.hdus.headD (SciHDU.plain [])).header
        "DISTNAME").getD "UNKNOWN" = "UNKNOWN") :
    applyAsAlternate hl f attach (some k) w =
      ⟨f, some Failure.distortionModelConflict, []⟩ := by
  simp only [List.headD_eq_head?_getD] at hu
  simp [applyAsAlternate, hv, hd, hu]

/-- C9: frame conditions of `attach_to_file`. Whenever anything is reported,
the file is unchanged and the reports are drawn from origin-mismatch and
duplicate-name; whenever an exception is raised the file is also unchanged;
and on clean success the result is exactly the input file with one new
`HeaderletHDU` appended and one `WCSCORR` row per `SIPWCS` extension of the
headerlet added — nothing else moves. -/
theorem C9_attach (hl : Hlet) (f : SciFile) :
    ((attachToFile hl f).reported ≠ [] →
      (attachToFile hl f).st = f ∧
      ((attachToFile hl f).reported = [Failure.originMismatch] ∨
       (attachToFile hl f).reported = [Failure.duplicateName] ∨
       (attachToFile hl f).reported =
         [Failure.originMismatch, Failure.duplicateName])) ∧
    (∀ e, (attachToFile hl f).raised = some e → (attachToFile hl f).st = f) ∧
    ((attachToFile hl f).raised = none → (attachToFile hl f).reported = [] →
      ∃ hdr,
        (attachToFile hl f).st.hdus = f.hdus ++ [SciHDU.hlet hdr hl.hdus] ∧
        (attachToFile hl f).st.wcsRows = f.wcsRows ++
          (hl.hdus.filter (fun h => extnameOf h == "SIPWCS")).map (fun h =>
            ⟨hl.hdrname.asStr, hl.wcsname.asStr, extverOf h, false⟩)) := by
  rcases hv : hverify hl with e | u
  · simp [attachToFile, hv]
  · rcases hd : verifyDest hl f with e | destver
    · simp [attachToFile, hv, hd]
    · cases hvh : verifyHdrname hl f
      · cases destver <;> simp [attachToFile, hv, hd, hvh]
      · cases destver
        · simp [attachToFile, hv, hd, hvh]
        · rcases hfrom : fromHeaderletHDU hl with e | hdr
          · simp [attachToFile, hv, hd, hvh, hfrom]
          · simp [attachToFile, hv, hd, hvh, hfrom, updateWcscorr]

/-- `mkHeaderlet` stores the parsed HDU list unchanged: on success the
headerlet's `hdus` field is exactly the input list. -/
theorem mkHeaderlet_hdus (l : Hdulist) (hl : Hlet)
    (h : mkHeaderlet l = Except.ok hl) : hl.hdus = l := by
  unfold mkHeaderlet at h
  cases g0 : l.head? with
  | none => (simp only [bind, Except.bind, g0] at h; exact Except.noConfusion h)
  | some u0 =>
  cases g1 : l[1]? with
  | none => (simp only [bind, Except.bind, g0, g1] at h; exact Except.noConfusion h)
  | some u1 =>
  cases g2 : hget u0 "HDRNAME" with
  | none => (simp only [bind, Except.bind, g0, g1, g2] at h; exact Except.noConfusion h)
  | some hdrname =>
  cases g3 : hget u0 "WCSNAME" with
  | none => (simp only [bind, Except.bind, g0, g1, g2, g3] at h; exact Except.noConfusion h)
  | some wcsname =>
  cases g4 : hget u0 "DESTIM" with
  | none => (simp only [bind, Except.bind, g0, g1, g2, g3, g4] at h; exact Except.noConfusion h)
  | some destim =>
  cases g5 : hget u0 "SIPNAME" with
  | none => (simp only [bind, Except.bind, g0, g1, g2, g3, g4, g5] at h; exact Except.noConfusion h)
  | some sipname =>
  cases g6 : hget u0 "NPOLFILE" with
  | none => (simp only [bind, Except.bind, g0, g1, g2, g3, g4, g5, g6] at h; exact Except.noConfusion h)
  | some npolfile =>
  cases g7 : hget u0 "D2IMFILE" with
  | none => (simp only [bind, Except.bind, g0, g1, g2, g3, g4, g5, g6, g7] at h; exact Except.noConfusion h)
  | some d2imfile =>
  cases g8 : hget u0 "DISTNAME" with
  | none => (simp only [bind, Except.bind, g0, g1, g2, g3, g4, g5, g6, g7, g8] at h; exact Except.noConfusion h)
  | some distname =>
  cases g9 : hget u0 "AUTHOR" with
  | none => (simp only [bind, Except.bind, g0, g1, g2, g3, g4, g5, g6, g7, g8, g9] at h; exact Except.noConfusion h)
  | some author =>
  cases g10 : hget u0 "DESCRIP" with
  | none => (simp only [bind, Except.bind, g0, g1, g2, g3, g4, g5, g6, g7, g8, g9, g10] at h; exact Except.noConfusion h)
  | some descrip =>
    simp only [bind, Except.bind, g0, g1, g2, g3, g4, g5, g6, g7, g8, g9, g10,
      Except.ok.injEq] at h
    subst h
    rfl

/-- C7: round-trip through a standalone file. Whenever `create_headerlet`
produces a headerlet that passes `hverify`, `tofile` serializes exactly the
headerlet's own HDU list without mutating it, and parsing that serialized
list back through the `Headerlet` constructor returns a headerlet equal to
the original in every field (name, origin identifier, distortion model and
the per-extension transform HDUs included). -/
theorem C7_roundtrip (f : SciFile) (se : SciextArg) (hn dn wk wn : Option String)
    (hl : Hlet)
    (hc : createHeaderlet f se hn dn wk wn = Except.ok hl)
    (hv : hverify hl = Except.ok ()) :
    tofile hl = Except.ok hl.hdus ∧ mkHeaderlet hl.hdus = Except.ok hl := by
  unfold createHeaderlet at hc
  cases hh : createHeaderletHdul f se hn dn wk wn with
  | error e => (simp only [bind, Except.bind, hh] at hc; exact Except.noConfusion hc)
  | ok hdul =>
    simp only [bind, Except.bind, hh] at hc
    refine ⟨?_, ?_⟩
    · unfold tofile
      rw [hv]
      rfl
    · rw [mkHeaderlet_hdus hdul hl hc]
      exact hc

/-- Witness for C4: the origin-mismatched headerlet `hletX` against `fileA`. -/
theorem C4_origin_guard_witness :
    applyAsPrimary hletX fileA true true false =
      ⟨fileA, none, [Failure.originMismatch]⟩ ∧
    (attachToFile hletX fileA).st = fileA ∧
    (attachToFile hletX fileA).raised = none ∧
    Failure.originMismatch ∈ (attachToFile hletX fileA).reported :=
  C4_origin_guard hletX fileA true true false rfl rfl

/-- Witness for C5: attach `hlet2` (name `H2`) to `fileA`, then the same-name
`hlet2b`, then the fresh-name `hlet3`. -/
theorem C5_duplicate_name_guard_witness :
    (attachToFile hlet2 fileA).raised = none ∧
    (attachToFile hlet2 fileA).reported = [] ∧
    (attachToFile hlet2b (attachToFile hlet2 fileA).st).reported =
      [Failure.duplicateName] ∧
    (attachToFile hlet2b (attachToFile hlet2 fileA).st).st =
      (attachToFile hlet2 fileA).st ∧
    (attachToFile hlet3 (attachToFile hlet2 fileA).st).raised = none ∧
    (attachToFile hlet3 (attachToFile hlet2 fileA).st).reported = [] ∧
    countExtn (attachToFile hlet3 (attachToFile hlet2 fileA).st).st "HDRLET" =
      countExtn fileA "HDRLET" + 2 :=
  C5_duplicate_name_guard fileA hlet2 hlet2b hlet3
    [⟨"XTENSION", .str "FITS"⟩, ⟨"HDRNAME", .str "H2"⟩,
     ⟨"DATE", .str "2012-01-01T00:00:00"⟩, ⟨"SIPNAME", .str "S2"⟩,
     ⟨"WCSNAME", .str "W2"⟩, ⟨"DISTNAME", .str "M2"⟩,
     ⟨"NPOLFILE", .str "N2"⟩, ⟨"D2IMFILE", .str "D2"⟩,
     ⟨"EXTNAME", .str "HDRLET"⟩]
    [⟨"XTENSION", .str "FITS"⟩, ⟨"HDRNAME", .str "H3"⟩,
     ⟨"DATE", .str "2012-01-01T00:00:00"⟩, ⟨"SIPNAME", .str "S2"⟩,
     ⟨"WCSNAME", .str "W3"⟩, ⟨"DISTNAME", .str "M2"⟩,
     ⟨"NPOLFILE", .str "N2"⟩, ⟨"D2IMFILE", .str "D2"⟩,
     ⟨"EXTNAME", .str "HDRLET"⟩]
    (by simp [fileA]) rfl rfl rfl rfl rfl rfl rfl rfl rfl rfl rfl
    (by decide)

/-- Witness for C7: the headerlet `hl7` created from `fileA` round-trips. -/
theorem C7_roundtrip_witness :
    tofile hl7 = Except.ok hl7.hdus ∧ mkHeaderlet hl7.hdus = Except.ok hl7 :=
  C7_roundtrip fileA (.byName "SCI") (some "HL1") none (some " ") none hl7
    rfl rfl

/-- Witness for C9: a clean attach of `hlet2` to `fileA` has exactly the frame
described by the success branch. -/
theorem C9_attach_witness :
    ∃ hdr,
      (attachToFile hlet2 fileA).st.hdus =
        fileA.hdus ++ [SciHDU.hlet hdr hlet2.hdus] ∧
      (attachToFile hlet2 fileA).st.wcsRows = fileA.wcsRows ++
        (hlet2.hdus.filter (fun h => extnameOf h == "SIPWCS")).map (fun h =>
          ⟨hlet2.hdrname.asStr, hlet2.wcsname.asStr, extverOf h, false⟩) :=
  (C9_attach hlet2 fileA).2.2 rfl rfl

/-- Witness for C10: `hletU` against both `fileU` (explicit `UNKNOWN`) and
`fileN` (no `DISTNAME` card). -/
theorem C10_gate_witness :
    applyAsAlternate hletU fileU true (some "Q") none =
      ⟨fileU, some Failure.distortionModelConflict, []⟩ ∧
    applyAsAlternate hletU fileN true (some "Q") none =
      ⟨fileN, some Failure.distortionModelConflict, []⟩ :=
  ⟨C10_gate hletU fileU true "Q" none rfl rfl rfl,
   C10_gate hletU fileN true "Q" none rfl rfl rfl⟩
